import Mathlib

/-!
# llvm-node: the `Function` binding (`src/ir/function.cc`)

A shallow embedding of `FunctionWrapper`, the class that exposes
`llvm::Function` to JavaScript.  The scripting runtime (values, function
templates, persistent handles) and the native toolkit (functions, modules,
block lists) are external collaborators; they are modelled by explicit state
that every binding operation threads through.
-/

namespace LlvmNode

/-! ## Script-side values -/

/-- Native addresses; zero is the null pointer. -/
abbrev Ptr := Nat

/-- The null pointer. -/
def nullptr : Ptr := 0

/-- Values of the scripting runtime.  `number n` is a number whose value is the
integer `n`; `double bits` is any number that is not integer valued.  `object t w`
is an object instantiated from function template `t`, whose internal field holds
a wrapper around the native address `w` (`none` while no wrapper is attached).
`plain` is an object that no template instantiated. -/
inductive JsValue where
  | undefined
  | null
  | boolean (b : Bool)
  | number (n : Int)
  | double (bits : Nat)
  | string (s : String)
  | external (p : Ptr)
  | object (tmpl : Nat) (internal : Option Ptr)
  | plain
  | array (elems : List JsValue)

/-- Errors a binding call can end in: a thrown `TypeError`, or the abort of a
checked conversion (`ToLocalChecked`, `Unwrap` of an object without wrapper). -/
inductive JsError where
  | typeError (msg : String)
  | fatal (msg : String)
  deriving DecidableEq, Repr

/-- Outcome of a callback: the return value or the error. -/
abbrev Completion := Except JsError JsValue

/-- `Nan::ThrowTypeError(msg)` followed by `return`. -/
def ThrowTypeError (msg : String) : Completion := .error (.typeError msg)

/-- `value->IsUint32()`. -/
def JsValue.IsUint32 : JsValue → Bool
  | .number n => decide (0 ≤ n) && decide (n < 4294967296)
  | _ => false

/-- `value->IsString()`. -/
def JsValue.IsString : JsValue → Bool
  | .string _ => true
  | _ => false

/-- `value->IsExternal()`. -/
def JsValue.IsExternal : JsValue → Bool
  | .external _ => true
  | _ => false

/-- `Nan::To<uint32_t>(value)`: the number reduced modulo `2^32`.  The binding
applies it only to values that passed `IsUint32`; the coercion of other kinds is
the runtime's `ToUint32` of a non-number, taken as `0` (`1` for `true`). -/
def JsValue.toUint32 : JsValue → Nat
  | .number n => (n % 4294967296).toNat
  | .boolean true => 1
  | _ => 0

/-- `ToString(value)` of `util/string.h` on a string value. -/
def JsValue.ToStdString : JsValue → String
  | .string s => s
  | _ => ""

/-- `v8::External::Cast(value)->Value()`. -/
def JsValue.externalValue : JsValue → Ptr
  | .external p => p
  | _ => nullptr

/-- `Nan::ObjectWrap::Unwrap` followed by the wrapper's native getter: the
address held by the wrapper in the object's internal field. -/
def JsValue.unwrap : JsValue → Option Ptr
  | .object _ w => w
  | _ => none

/-- A value is complete when it is not a template instance that still lacks its
wrapper; every instance the binding hands out is complete. -/
def JsValue.Wrapped : JsValue → Bool
  | .object _ none => false
  | _ => true

/-- The arguments of a callback invocation (`info`). -/
structure CallInfo where
  args : List JsValue
  holder : JsValue
  isConstructCall : Bool

/-- `info.Length()`. -/
def CallInfo.Length (info : CallInfo) : Nat := info.args.length

/-- `info[i]`: the argument, or `undefined` past the end. -/
def CallInfo.get (info : CallInfo) (i : Nat) : JsValue := info.args.getD i .undefined

/-! ## Function templates and the per-class persistent handles -/

/-- The classes of the binding. -/
inductive ClassId where
  | Value
  | Constant
  | Function
  | Type_
  | FunctionType
  | Module
  | BasicBlock
  | Argument
  deriving DecidableEq, Repr

/-- A `v8::FunctionTemplate`: class name, internal field count of its
instances, parent template, and the operation table. -/
structure FunctionTemplate where
  callback : String
  className : String
  internalFieldCount : Nat
  parent : Option Nat
  staticMethods : List String
  prototypeMethods : List String
  accessors : List String
  deriving DecidableEq, Repr

/-- `Nan::New<v8::FunctionTemplate>(callback)`: a template with nothing set. -/
def FunctionTemplate.blank (callback : String) : FunctionTemplate :=
  { callback := callback, className := "", internalFieldCount := 0, parent := none,
    staticMethods := [], prototypeMethods := [], accessors := [] }

/-! ## The native toolkit -/

/-- An `llvm::Function`, as far as the binding reads or writes it. -/
structure NativeFunction where
  functionType : Ptr
  linkage : Nat
  name : String
  parent : Ptr
  callingConv : Nat
  blocks : List Ptr
  args : List Ptr
  attrs : List (String × String)
  deriving DecidableEq, Repr

/-- The native operations that change native state. -/
inductive NativeCall where
  | functionCreate (functionType : Ptr) (linkage : Nat) (name : String) (module : Ptr)
  | pushBackBlock (function : Ptr) (block : Ptr)
  | addFnAttr (function : Ptr) (attr : String) (value : String)
  | setCallingConv (function : Ptr) (callingConvention : Nat)
  | viewCFG (function : Ptr)
  deriving DecidableEq, Repr

/-- The native object graph: functions by address, the function list of each
module, the parameter count of each function type, the allocation mark, and the
trace of state changing native calls made so far. -/
structure NativeState where
  functions : List (Ptr × NativeFunction)
  modules : List (Ptr × List Ptr)
  functionTypes : List (Ptr × Nat)
  nextPtr : Nat
  calls : List NativeCall
  deriving DecidableEq, Repr

/-- The state every binding call runs in: the template heap (a template is
identified by its index), the persistent handle of each class (`IsEmpty` when
the class has no entry), and the native object graph. -/
structure State where
  templates : List FunctionTemplate
  cache : List (ClassId × Nat)
  native : NativeState
  deriving DecidableEq, Repr

/-- The state of a fresh process: no template, every handle empty. -/
def State.empty : State :=
  { templates := [], cache := [],
    native := { functions := [], modules := [], functionTypes := [], nextPtr := 0, calls := [] } }

/-- The template a class's persistent handle holds; `none` when `IsEmpty()`. -/
def State.lookup (s : State) (c : ClassId) : Option Nat := s.cache.lookup c

/-- `Nan::New<v8::FunctionTemplate>(callback)`: allocates a blank template. -/
def State.newTemplate (s : State) (callback : String) : Nat × State :=
  (s.templates.length, { s with templates := s.templates ++ [FunctionTemplate.blank callback] })

/-- Applies the setters `f` to the template `t`. -/
def State.updateTemplate (s : State) (t : Nat) (f : FunctionTemplate → FunctionTemplate) : State :=
  match s.templates[t]? with
  | some d => { s with templates := s.templates.set t (f d) }
  | none => s

/-- `tmpl.Reset(t)` on the persistent handle of class `c`. -/
def State.reset (s : State) (c : ClassId) (t : Nat) : State :=
  { s with cache := (c, t) :: s.cache }

/-- Walks the parent links from template `t`, looking for `target`. -/
def inheritsFrom (ts : List FunctionTemplate) : Nat → Nat → Nat → Bool
  | 0, _, _ => false
  | fuel + 1, t, target =>
    if t = target then true
    else
      match ts[t]? with
      | some d =>
        match d.parent with
        | some p => inheritsFrom ts fuel p target
        | none => false
      | none => false

/-- `Nan::New(tmpl)->HasInstance(value)`: the value is an object instantiated
from the template or from a template that inherits from it. -/
def HasInstance (s : State) (t : Nat) : JsValue → Bool
  | .object t' _ => inheritsFrom s.templates (s.templates.length + 1) t' t
  | _ => false

/-! ## Native operations (the external toolkit) -/

/-- Replaces the value stored under the first entry for `k`. -/
def assocUpdate {β : Type} (k : Ptr) (f : β → β) : List (Ptr × β) → List (Ptr × β)
  | [] => []
  | (k', v) :: rest =>
    if k' = k then (k', f v) :: rest else (k', v) :: assocUpdate k f rest

/-- The native function at address `p`. -/
def NativeState.function? (n : NativeState) (p : Ptr) : Option NativeFunction :=
  n.functions.lookup p

/-- Allocates `k` fresh native objects, returning their addresses in order. -/
def NativeState.allocMany : Nat → NativeState → List Ptr × NativeState
  | 0, n => ([], n)
  | k + 1, n =>
    let p := n.nextPtr + 1
    let r := NativeState.allocMany k { n with nextPtr := p }
    (p :: r.1, r.2)

/-- Appends function `fn` to the function list of module `m`. -/
def NativeState.insertIntoModule (n : NativeState) (m fn : Ptr) : NativeState :=
  match n.modules.lookup m with
  | some _ => { n with modules := assocUpdate m (fun fs => fs ++ [fn]) n.modules }
  | none => { n with modules := n.modules ++ [(m, [fn])] }

/-- `llvm::Function::Create(functionType, linkage, name, module)`: a new function
with the C calling convention, no block, one argument per parameter of the
function type, inserted into `module` unless that is null. -/
def NativeState.functionCreate (n : NativeState) (functionType : Ptr) (linkage : Nat)
    (name : String) (module : Ptr) : Ptr × NativeState :=
  let fn := n.nextPtr + 1
  let r := NativeState.allocMany ((n.functionTypes.lookup functionType).getD 0)
    { n with nextPtr := fn }
  let f : NativeFunction :=
    { functionType := functionType, linkage := linkage, name := name, parent := module,
      callingConv := 0, blocks := [], args := r.1, attrs := [] }
  let n1 : NativeState := { r.2 with functions := (fn, f) :: r.2.functions }
  let n2 := if module = nullptr then n1 else n1.insertIntoModule module fn
  (fn, { n2 with calls := n2.calls ++ [NativeCall.functionCreate functionType linkage name module] })

/-- `function->getBasicBlockList().push_back(block)`. -/
def NativeState.pushBackBlock (n : NativeState) (fn block : Ptr) : NativeState :=
  { n with
    functions := assocUpdate fn (fun f => { f with blocks := f.blocks ++ [block] }) n.functions,
    calls := n.calls ++ [NativeCall.pushBackBlock fn block] }

/-- `function->addFnAttr(attribute, value)`. -/
def NativeState.addFnAttr (n : NativeState) (fn : Ptr) (attr value : String) : NativeState :=
  { n with
    functions := assocUpdate fn (fun f => { f with attrs := f.attrs ++ [(attr, value)] }) n.functions,
    calls := n.calls ++ [NativeCall.addFnAttr fn attr value] }

/-- `function->setCallingConv(cc)`. -/
def NativeState.setCallingConv (n : NativeState) (fn : Ptr) (cc : Nat) : NativeState :=
  { n with
    functions := assocUpdate fn (fun f => { f with callingConv := cc }) n.functions,
    calls := n.calls ++ [NativeCall.setCallingConv fn cc] }

/-- `function->viewCFG()`: opens a viewer, the object graph stays as it is. -/
def NativeState.viewCFG (n : NativeState) (fn : Ptr) : NativeState :=
  { n with calls := n.calls ++ [NativeCall.viewCFG fn] }

/-! ## Sibling wrappers (other translation units of the binding) -/

/-- The class name a class registers under. -/
def ClassId.className : ClassId → String
  | .Value => "Value"
  | .Constant => "Constant"
  | .Function => "Function"
  | .Type_ => "Type"
  | .FunctionType => "FunctionType"
  | .Module => "Module"
  | .BasicBlock => "BasicBlock"
  | .Argument => "Argument"

/-- Modelled from the spec: the parent of each class (the files declaring the
sibling templates are not part of the sources at hand).  The chain mirrors the
native hierarchy, one level per native subclass relationship: `Function` derives
from `Constant`, `Constant` from `Value`; blocks and arguments are values;
a function type is a type. -/
def ClassId.parent : ClassId → Option ClassId
  | .Value => none
  | .Constant => some .Value
  | .Function => some .Constant
  | .Type_ => none
  | .FunctionType => some .Type_
  | .Module => none
  | .BasicBlock => some .Value
  | .Argument => some .Value

/-- Modelled from the spec: the descriptor lookup of a root class (`valueTemplate`,
`typeTemplate`, `moduleTemplate`, whose sources are missing).  The first call
builds the descriptor and caches it; later calls return the cached one. -/
def rootTemplate (c : ClassId) (s : State) : Nat × State :=
  match s.lookup c with
  | some t => (t, s)
  | none =>
    let r := s.newTemplate c.className
    let s1 := r.2.updateTemplate r.1 (fun d =>
      { d with className := c.className, internalFieldCount := 1 })
    (r.1, s1.reset c r.1)

/-- Modelled from the spec: the descriptor lookup of a class with a parent
(`constantTemplate`, `functionTypeTemplate`, `basicBlockTemplate`,
`argumentTemplate`, whose sources are missing).  The first call builds the
descriptor, links its parent through the parent's own lookup, and caches it;
later calls return the cached one. -/
def derivedTemplate (c : ClassId) (parentTemplate : State → Nat × State) (s : State) :
    Nat × State :=
  match s.lookup c with
  | some t => (t, s)
  | none =>
    let r := s.newTemplate c.className
    let p := parentTemplate r.2
    let s1 := p.2.updateTemplate r.1 (fun d =>
      { d with className := c.className, internalFieldCount := 1, parent := some p.1 })
    (r.1, s1.reset c r.1)

/-- Modelled from the spec: `ValueWrapper::valueTemplate` (missing source). -/
def ValueWrapper.valueTemplate : State → Nat × State := rootTemplate .Value

/-- Modelled from the spec: `ConstantWrapper::constantTemplate` (missing source);
the parent of `Constant` is `Value`. -/
def ConstantWrapper.constantTemplate : State → Nat × State :=
  derivedTemplate .Constant ValueWrapper.valueTemplate

/-- Modelled from the spec: `TypeWrapper::typeTemplate` (missing source). -/
def TypeWrapper.typeTemplate : State → Nat × State := rootTemplate .Type_

/-- Modelled from the spec: `FunctionTypeWrapper::functionTypeTemplate` (missing
source). -/
def FunctionTypeWrapper.functionTypeTemplate : State → Nat × State :=
  derivedTemplate .FunctionType TypeWrapper.typeTemplate

/-- Modelled from the spec: `ModuleWrapper::moduleTemplate` (missing source). -/
def ModuleWrapper.moduleTemplate : State → Nat × State := rootTemplate .Module

/-- Modelled from the spec: `BasicBlockWrapper::basicBlockTemplate` (missing
source). -/
def BasicBlockWrapper.basicBlockTemplate : State → Nat × State :=
  derivedTemplate .BasicBlock ValueWrapper.valueTemplate

/-- Modelled from the spec: `ArgumentWrapper::argumentTemplate` (missing source). -/
def ArgumentWrapper.argumentTemplate : State → Nat × State :=
  derivedTemplate .Argument ValueWrapper.valueTemplate

/-- The per-class predicate `Nan::New(tmpl())->HasInstance(value)`, the body of
every `isInstance` of the binding (line 170 for `Function`). -/
def isInstanceVia (tmpl : State → Nat × State) (value : JsValue) (s : State) : Bool × State :=
  let r := tmpl s
  (HasInstance r.2 r.1 value, r.2)

/-- Modelled from the spec: `ValueWrapper::isInstance` (missing source). -/
def ValueWrapper.isInstance : JsValue → State → Bool × State :=
  isInstanceVia ValueWrapper.valueTemplate

/-- Modelled from the spec: `ConstantWrapper::isInstance` (missing source). -/
def ConstantWrapper.isInstance : JsValue → State → Bool × State :=
  isInstanceVia ConstantWrapper.constantTemplate

/-- Modelled from the spec: `FunctionTypeWrapper::isInstance` (missing source). -/
def FunctionTypeWrapper.isInstance : JsValue → State → Bool × State :=
  isInstanceVia FunctionTypeWrapper.functionTypeTemplate

/-- Modelled from the spec: `ModuleWrapper::isInstance` (missing source). -/
def ModuleWrapper.isInstance : JsValue → State → Bool × State :=
  isInstanceVia ModuleWrapper.moduleTemplate

/-- Modelled from the spec: `BasicBlockWrapper::isInstance` (missing source). -/
def BasicBlockWrapper.isInstance : JsValue → State → Bool × State :=
  isInstanceVia BasicBlockWrapper.basicBlockTemplate

/-- Modelled from the spec: the `wrap(nativeRef)` of a sibling class
(`BasicBlockWrapper::of`, `ArgumentWrapper::of`, missing sources): resolves the
class descriptor, populating the registry on first sight, and binds descriptor
and reference in a new handle; a null reference is an error. -/
def wrapVia (tmpl : State → Nat × State) (p : Ptr) (s : State) : Completion × State :=
  let r := tmpl s
  if p = nullptr then (.error (.fatal "native reference required"), r.2)
  else (.ok (.object r.1 (some p)), r.2)

/-- Modelled from the spec: `BasicBlockWrapper::of` (missing source). -/
def BasicBlockWrapper.of : Ptr → State → Completion × State :=
  wrapVia BasicBlockWrapper.basicBlockTemplate

/-- Modelled from the spec: `ArgumentWrapper::of` (missing source). -/
def ArgumentWrapper.of : Ptr → State → Completion × State :=
  wrapVia ArgumentWrapper.argumentTemplate

/-! ## `FunctionWrapper` (src/ir/function.cc) -/

/-- `FunctionWrapper::New` (lines 19-33): the constructor callback.  It demands a
construct call with exactly one external argument, then attaches a wrapper
around the external's pointer to `info.This()` and returns that object. -/
def FunctionWrapper.New (info : CallInfo) : Completion :=
  if !info.isConstructCall then
    ThrowTypeError "Class Constructor Function cannot be invoked without new"
  else if info.Length != 1 || !(info.get 0).IsExternal then
    ThrowTypeError "External Function Pointer required"
  else
    let function := (info.get 0).externalValue
    match info.holder with
    | .object t _ => .ok (.object t (some function))
    | _ => .error (.fatal "Wrap: receiver has no internal field")

/-- `FunctionWrapper::functionTemplate` (lines 35-58): builds the template when
the persistent handle is empty, and returns the handle's template. -/
def FunctionWrapper.functionTemplate (s : State) : Nat × State :=
  match s.lookup .Function with
  | some t => (t, s)
  | none =>
    let localTemplate := s.newTemplate "FunctionWrapper::New"
    let valueTemplate := ConstantWrapper.constantTemplate localTemplate.2
    let s1 := valueTemplate.2.updateTemplate localTemplate.1 (fun d =>
      { d with
        className := "Function",
        internalFieldCount := 1,
        parent := some valueTemplate.1,
        staticMethods := d.staticMethods ++ ["create"],
        prototypeMethods := d.prototypeMethods ++
          ["addBasicBlock", "addFnAttr", "getArguments", "getEntryBlock", "viewCFG"],
        accessors := d.accessors ++ ["callingConv"] })
    (localTemplate.1, s1.reset .Function localTemplate.1)

/-- `Nan::NewInstance(constructor, 1, args)` for the constructor of template `t`,
whose callback is `FunctionWrapper::New`: a construct call on a new instance. -/
def FunctionWrapper.NewInstance (t : Nat) (args : List JsValue) : Completion :=
  FunctionWrapper.New { args := args, holder := .object t none, isConstructCall := true }

/-- `FunctionWrapper::of` (lines 60-70): the handle of a native function. -/
def FunctionWrapper.of (function : Ptr) (s : State) : Completion × State :=
  let localTemplate := FunctionWrapper.functionTemplate s
  let args := [JsValue.external function]
  match FunctionWrapper.NewInstance localTemplate.1 args with
  | .ok instance_ => (.ok instance_, localTemplate.2)
  | .error _ => (.error (.fatal "ToLocalChecked: empty handle"), localTemplate.2)

/-- `FunctionWrapper::isInstance` (lines 169-171). -/
def FunctionWrapper.isInstance : JsValue → State → Bool × State :=
  isInstanceVia FunctionWrapper.functionTemplate

/-- `FunctionWrapper::Init` (lines 14-17): registers the constructor of the
`Function` template on the module's exports under the name "Function". -/
def FunctionWrapper.Init (target : List (String × Nat)) (s : State) :
    List (String × Nat) × State :=
  let constructorFunction := FunctionWrapper.functionTemplate s
  (target ++ [("Function", constructorFunction.1)], constructorFunction.2)

/-- The message of the error `Create` throws. -/
def FunctionWrapper.createMessage : String :=
  "Create needs to be called with: functionType: FunctionType, linkageTypes: uint32, name: string?, module?: Module"

/-- The condition of the guard of `Create` (lines 73-75), evaluated left to right
with the short circuit of `||` and `&&`: `true` when the call is to be rejected. -/
def FunctionWrapper.createRejects (info : CallInfo) (s : State) : Bool × State :=
  if info.Length < 2 then (true, s)
  else
    let c0 := FunctionTypeWrapper.isInstance (info.get 0) s
    if !c0.1 then (true, c0.2)
    else if !(info.get 1).IsUint32 then (true, c0.2)
    else if info.Length > 2 && !(info.get 2).IsString then (true, c0.2)
    else if info.Length > 3 then
      let c3 := ModuleWrapper.isInstance (info.get 3) c0.2
      (!c3.1, c3.2)
    else (false, c0.2)

/-- `FunctionWrapper::Create` (lines 72-96): the static factory. -/
def FunctionWrapper.Create (info : CallInfo) (s : State) : Completion × State :=
  let guard := FunctionWrapper.createRejects info s
  if guard.1 then (ThrowTypeError FunctionWrapper.createMessage, guard.2)
  else
    match (info.get 0).unwrap with
    | none => (.error (.fatal "Unwrap: no wrapper"), guard.2)
    | some functionType =>
      let linkageType := (info.get 1).toUint32
      let name := if info.Length > 2 then (info.get 2).ToStdString else ""
      let module : Option Ptr :=
        if info.Length = 4 then (info.get 3).unwrap else some nullptr
      match module with
      | none => (.error (.fatal "Unwrap: no wrapper"), guard.2)
      | some module =>
        let created := guard.2.native.functionCreate functionType linkageType name module
        FunctionWrapper.of created.1 { guard.2 with native := created.2 }

/-- `FunctionWrapper::addBasicBlock` (lines 98-106). -/
def FunctionWrapper.addBasicBlock (info : CallInfo) (s : State) : Completion × State :=
  if info.Length != 1 then
    (ThrowTypeError "addBasicBlock needs to be called with: block: BasicBlock", s)
  else
    let c0 := BasicBlockWrapper.isInstance (info.get 0) s
    if !c0.1 then
      (ThrowTypeError "addBasicBlock needs to be called with: block: BasicBlock", c0.2)
    else
      match (info.get 0).unwrap, info.holder.unwrap with
      | some block, some function =>
        (.ok .undefined, { c0.2 with native := c0.2.native.pushBackBlock function block })
      | _, _ => (.error (.fatal "Unwrap: no wrapper"), c0.2)

/-- `FunctionWrapper::addFnAttr` (lines 108-124). -/
def FunctionWrapper.addFnAttr (info : CallInfo) (s : State) : Completion × State :=
  if info.Length < 1 || !(info.get 0).IsString ||
      (info.Length == 2 && !(info.get 1).IsString) || info.Length > 2 then
    (ThrowTypeError "addFnAttr needs to be called with: attribute: string, value?: string", s)
  else
    let attr := (info.get 0).ToStdString
    let value := if info.Length = 2 then (info.get 1).ToStdString else ""
    match info.holder.unwrap with
    | some function => (.ok .undefined, { s with native := s.native.addFnAttr function attr value })
    | none => (.error (.fatal "Unwrap: no wrapper"), s)

/-- `Nan::New<v8::Array>(length)`: the length arrives as a C `int`; a negative
length gives the empty array. -/
def newArray (length : Nat) : List JsValue :=
  let m := length % 4294967296
  if m < 2147483648 then List.replicate m JsValue.undefined else []

/-- `result->Set(i, value)`: stores at index `i`, growing the array when needed. -/
def arraySet (result : List JsValue) (i : Nat) (value : JsValue) : List JsValue :=
  if i < result.length then result.set i value
  else result ++ List.replicate (i - result.length) JsValue.undefined ++ [value]

/-- The loop of `getArguments` (lines 130-134) over the remaining arguments, with
the `uint32_t` counter `i`. -/
def FunctionWrapper.getArgumentsLoop :
    List Ptr → Nat → List JsValue → State → Except JsError (List JsValue) × State
  | [], _, result, s => (.ok result, s)
  | arg :: rest, i, result, s =>
    match ArgumentWrapper.of arg s with
    | (.ok handle, s1) =>
      FunctionWrapper.getArgumentsLoop rest ((i + 1) % 4294967296) (arraySet result i handle) s1
    | (.error e, s1) => (.error e, s1)

/-- `FunctionWrapper::getArguments` (lines 126-137). -/
def FunctionWrapper.getArguments (info : CallInfo) (s : State) : Completion × State :=
  match info.holder.unwrap with
  | none => (.error (.fatal "Unwrap: no wrapper"), s)
  | some function =>
    match s.native.function? function with
    | none => (.error (.fatal "dangling function pointer"), s)
    | some f =>
      let result := newArray f.args.length
      match FunctionWrapper.getArgumentsLoop f.args 0 result s with
      | (.ok elems, s1) => (.ok (.array elems), s1)
      | (.error e, s1) => (.error e, s1)

/-- `FunctionWrapper::getEntryBlock` (lines 139-144): wraps the first block of
the function's block list. -/
def FunctionWrapper.getEntryBlock (info : CallInfo) (s : State) : Completion × State :=
  match info.holder.unwrap with
  | none => (.error (.fatal "Unwrap: no wrapper"), s)
  | some function =>
    match s.native.function? function with
    | none => (.error (.fatal "dangling function pointer"), s)
    | some f =>
      match f.blocks with
      | [] => (.error (.fatal "getEntryBlock: empty block list"), s)
      | entryBlock :: _ => BasicBlockWrapper.of entryBlock s

/-- `FunctionWrapper::getCallingConv` (lines 146-149): the accessor's getter. -/
def FunctionWrapper.getCallingConv (holder : JsValue) (s : State) : Completion × State :=
  match holder.unwrap with
  | none => (.error (.fatal "Unwrap: no wrapper"), s)
  | some function =>
    match s.native.function? function with
    | none => (.error (.fatal "dangling function pointer"), s)
    | some f => (.ok (.number (Int.ofNat f.callingConv)), s)

/-- `FunctionWrapper::setCallingConv` (lines 151-159): the accessor's setter. -/
def FunctionWrapper.setCallingConv (holder value : JsValue) (s : State) : Completion × State :=
  if !value.IsUint32 then
    (ThrowTypeError "callingConv needs to be a value of llvm.CallingConv", s)
  else
    let callingConvention := value.toUint32
    match holder.unwrap with
    | none => (.error (.fatal "Unwrap: no wrapper"), s)
    | some function =>
      (.ok .undefined, { s with native := s.native.setCallingConv function callingConvention })

/-- `FunctionWrapper::viewCFG` (lines 161-163). -/
def FunctionWrapper.viewCFG (info : CallInfo) (s : State) : Completion × State :=
  match info.holder.unwrap with
  | none => (.error (.fatal "Unwrap: no wrapper"), s)
  | some function => (.ok .undefined, { s with native := s.native.viewCFG function })

/-- A run of `n` consecutive calls of `functionTemplate`: the descriptors the
calls returned, in order, and the state after the last one. -/
def FunctionWrapper.functionTemplateCalls : Nat → State → List Nat × State
  | 0, s => ([], s)
  | n + 1, s =>
    let r := FunctionWrapper.functionTemplate s
    let rest := FunctionWrapper.functionTemplateCalls n r.2
    (r.1 :: rest.1, rest.2)

/-- The registry fixture of the examples: the state of a fresh process after
the descriptor lookups of `FunctionType`, `Module`, `BasicBlock` and `Argument`
(templates 0, 2, 3 and 5; `Type` is 1 and `Value` is 4). -/
def State.ready : State :=
  (ArgumentWrapper.argumentTemplate
    (BasicBlockWrapper.basicBlockTemplate
      (ModuleWrapper.moduleTemplate
        (FunctionTypeWrapper.functionTypeTemplate State.empty).2).2).2).2

/-- The fixture of the examples with a function: the ready registry after
`Function.create(functionType, 0)` on the function type handle of template 0;
the new function is at address 1 and its handle is `object 6 (some 1)`. -/
def State.withFunction : State :=
  (FunctionWrapper.Create
    { args := [.object 0 (some 100), .number 0], holder := .undefined,
      isConstructCall := false } State.ready).2

/-- The fixture of the examples with arguments: the ready registry with one
native function at address 7 whose arguments are at 8 and 9. -/
def State.withArguments : State :=
  { State.ready with
    native :=
      { functions := [(7, { functionType := 100, linkage := 0, name := "f", parent := 0,
                            callingConv := 0, blocks := [], args := [8, 9], attrs := [] })],
        modules := [], functionTypes := [(100, 2)], nextPtr := 9, calls := [] } }

/-- The number of ancestors of a class in the mirrored hierarchy. -/
def ClassId.depth : ClassId → Nat
  | .Value => 0
  | .Constant => 1
  | .Function => 2
  | .Type_ => 0
  | .FunctionType => 1
  | .Module => 0
  | .BasicBlock => 1
  | .Argument => 1

/-- The registry invariant: the template a class's persistent handle holds
exists, carries the class's name, and, for a class with a parent, links to the
template that the parent's handle holds. -/
def RegistryOk (s : State) : Prop :=
  ∀ c t, s.lookup c = some t →
    ∃ d, s.templates[t]? = some d ∧ d.className = c.className ∧
      ∀ pc, c.parent = some pc → ∃ tp, s.lookup pc = some tp ∧ d.parent = some tp

/-- State `s'` keeps every template and every handle of `s`. -/
def Grows (s s' : State) : Prop :=
  (∀ (i : Nat) (d : FunctionTemplate), s.templates[i]? = some d → s'.templates[i]? = some d) ∧
  (∀ (c : ClassId) (t : Nat), s.lookup c = some t → s'.lookup c = some t)

/-- A descriptor lookup for class `c` that keeps the registry invariant, keeps
what exists, leaves the handle of `c` set to what it returns, and leaves alone
the handles of the classes deeper in the hierarchy than `c`. -/
def GoodGetter (c : ClassId) (g : State → Nat × State) : Prop :=
  ∀ s, RegistryOk s →
    RegistryOk (g s).2 ∧ Grows s (g s).2 ∧ (g s).2.lookup c = some (g s).1 ∧
      ∀ c', c.depth < c'.depth → (g s).2.lookup c' = s.lookup c'

/-! ## The registry: state that lookups leave alone -/

theorem updateTemplate_native (s : State) (t : Nat) (f : FunctionTemplate → FunctionTemplate) :
    (s.updateTemplate t f).native = s.native := by
  unfold State.updateTemplate
  split <;> rfl

theorem updateTemplate_cache (s : State) (t : Nat) (f : FunctionTemplate → FunctionTemplate) :
    (s.updateTemplate t f).cache = s.cache := by
  unfold State.updateTemplate
  split <;> rfl

theorem lookup_reset_self (s : State) (c : ClassId) (t : Nat) :
    (s.reset c t).lookup c = some t := by
  simp [State.reset, State.lookup, List.lookup]

theorem rootTemplate_native (c : ClassId) (s : State) :
    (rootTemplate c s).2.native = s.native := by
  unfold rootTemplate
  split
  · rfl
  · simp [State.reset, updateTemplate_native, State.newTemplate]

theorem derivedTemplate_native (c : ClassId) (p : State → Nat × State)
    (hp : ∀ s, (p s).2.native = s.native) (s : State) :
    (derivedTemplate c p s).2.native = s.native := by
  unfold derivedTemplate
  split
  · rfl
  · simp [State.reset, updateTemplate_native, hp, State.newTemplate]

theorem rootTemplate_lookup (c : ClassId) (s : State) :
    (rootTemplate c s).2.lookup c = some (rootTemplate c s).1 := by
  unfold rootTemplate
  split
  · next t h => simpa using h
  · simp [lookup_reset_self]

theorem derivedTemplate_lookup (c : ClassId) (p : State → Nat × State) (s : State) :
    (derivedTemplate c p s).2.lookup c = some (derivedTemplate c p s).1 := by
  unfold derivedTemplate
  split
  · next t h => simpa using h
  · simp [lookup_reset_self]

theorem rootTemplate_of_cached (c : ClassId) (s : State) (t : Nat) (h : s.lookup c = some t) :
    rootTemplate c s = (t, s) := by
  unfold rootTemplate
  rw [h]

theorem derivedTemplate_of_cached (c : ClassId) (p : State → Nat × State) (s : State) (t : Nat)
    (h : s.lookup c = some t) : derivedTemplate c p s = (t, s) := by
  unfold derivedTemplate
  rw [h]

theorem functionTemplate_of_cached (s : State) (t : Nat) (h : s.lookup .Function = some t) :
    FunctionWrapper.functionTemplate s = (t, s) := by
  unfold FunctionWrapper.functionTemplate
  rw [h]

theorem functionTemplate_lookup (s : State) :
    (FunctionWrapper.functionTemplate s).2.lookup .Function
      = some (FunctionWrapper.functionTemplate s).1 := by
  unfold FunctionWrapper.functionTemplate
  split
  · next t h => simpa using h
  · simp [lookup_reset_self]

theorem functionTemplate_idem (s : State) :
    FunctionWrapper.functionTemplate (FunctionWrapper.functionTemplate s).2
      = FunctionWrapper.functionTemplate s :=
  functionTemplate_of_cached _ _ (functionTemplate_lookup s)

theorem valueTemplate_native (s : State) : (ValueWrapper.valueTemplate s).2.native = s.native :=
  rootTemplate_native _ s

theorem constantTemplate_native (s : State) :
    (ConstantWrapper.constantTemplate s).2.native = s.native :=
  derivedTemplate_native _ _ valueTemplate_native s

theorem functionTypeTemplate_native (s : State) :
    (FunctionTypeWrapper.functionTypeTemplate s).2.native = s.native :=
  derivedTemplate_native _ _ (rootTemplate_native _) s

theorem moduleTemplate_native (s : State) :
    (ModuleWrapper.moduleTemplate s).2.native = s.native :=
  rootTemplate_native _ s

theorem basicBlockTemplate_native (s : State) :
    (BasicBlockWrapper.basicBlockTemplate s).2.native = s.native :=
  derivedTemplate_native _ _ valueTemplate_native s

theorem argumentTemplate_native (s : State) :
    (ArgumentWrapper.argumentTemplate s).2.native = s.native :=
  derivedTemplate_native _ _ valueTemplate_native s

theorem functionTemplate_native (s : State) :
    (FunctionWrapper.functionTemplate s).2.native = s.native := by
  unfold FunctionWrapper.functionTemplate
  split
  · rfl
  · simp [State.reset, updateTemplate_native, constantTemplate_native, State.newTemplate]

theorem isInstanceVia_native (tmpl : State → Nat × State)
    (h : ∀ s, (tmpl s).2.native = s.native) (v : JsValue) (s : State) :
    (isInstanceVia tmpl v s).2.native = s.native := by
  simp [isInstanceVia, h]

/-! ## `of` and `New` -/

theorem of_eq (p : Ptr) (s : State) :
    FunctionWrapper.of p s
      = (.ok (.object (FunctionWrapper.functionTemplate s).1 (some p)),
          (FunctionWrapper.functionTemplate s).2) := by
  simp [FunctionWrapper.of, FunctionWrapper.NewInstance, FunctionWrapper.New, CallInfo.Length,
    CallInfo.get, JsValue.IsExternal, JsValue.externalValue]

/-! ## `Create` -/

theorem createRejects_native (info : CallInfo) (s : State) :
    (FunctionWrapper.createRejects info s).2.native = s.native := by
  unfold FunctionWrapper.createRejects
  dsimp only
  split_ifs <;>
    simp [FunctionTypeWrapper.isInstance, ModuleWrapper.isInstance, isInstanceVia_native,
      functionTypeTemplate_native, moduleTemplate_native]

theorem createRejects_of_ill_shaped (info : CallInfo) (s : State)
    (h : (FunctionTypeWrapper.isInstance (info.get 0) s).1 = false ∨
      (info.get 1).IsUint32 = false ∨
      (2 < info.Length ∧ (info.get 2).IsString = false) ∨
      (3 < info.Length ∧
        (ModuleWrapper.isInstance (info.get 3)
          (FunctionTypeWrapper.isInstance (info.get 0) s).2).1 = false)) :
    (FunctionWrapper.createRejects info s).1 = true := by
  unfold FunctionWrapper.createRejects
  dsimp only
  split_ifs with h1 h2 h3 h4 h5 <;> simp_all
  rcases h with ⟨hl, hs⟩ | h
  · exact absurd (h4 hl) (by simp [hs])
  · exact h

theorem Create_of_rejects (info : CallInfo) (s : State)
    (h : (FunctionWrapper.createRejects info s).1 = true) :
    FunctionWrapper.Create info s
      = (ThrowTypeError FunctionWrapper.createMessage, (FunctionWrapper.createRejects info s).2) := by
  simp [FunctionWrapper.Create, h]

theorem Create_of_accepts (info : CallInfo) (s : State) (functionType module : Ptr)
    (h : (FunctionWrapper.createRejects info s).1 = false)
    (h0 : (info.get 0).unwrap = some functionType)
    (h3 : (if info.Length = 4 then (info.get 3).unwrap else some nullptr) = some module) :
    FunctionWrapper.Create info s
      = FunctionWrapper.of
          ((FunctionWrapper.createRejects info s).2.native.functionCreate functionType
            (info.get 1).toUint32 (if info.Length > 2 then (info.get 2).ToStdString else "")
            module).1
          { (FunctionWrapper.createRejects info s).2 with
            native := ((FunctionWrapper.createRejects info s).2.native.functionCreate functionType
              (info.get 1).toUint32 (if info.Length > 2 then (info.get 2).ToStdString else "")
              module).2 } := by
  simp only [FunctionWrapper.Create, h, h0, h3]
  simp

theorem Create_rejects_short (info : CallInfo) (s : State) (h : info.Length < 2) :
    FunctionWrapper.Create info s = (ThrowTypeError FunctionWrapper.createMessage, s) := by
  have hr : FunctionWrapper.createRejects info s = (true, s) := by
    simp [FunctionWrapper.createRejects, h]
  simp [FunctionWrapper.Create, hr]

/-- C1, at the input that breaks it: `Function.create` called with five arguments
(a function type, linkage 0, a name, a module and one more value) is outside the
declared range of 2 to 4 arguments, yet the call is not rejected: it returns a
handle and the native constructor has been called. -/
theorem Create_accepts_five_arguments :
    (FunctionWrapper.Create
        { args := [.object 0 (some 100), .number 0, .string "f", .object 2 (some 200), .undefined],
          holder := .undefined, isConstructCall := false } State.ready).1
      = .ok (.object 6 (some 1)) ∧
    (FunctionWrapper.Create
        { args := [.object 0 (some 100), .number 0, .string "f", .object 2 (some 200), .undefined],
          holder := .undefined, isConstructCall := false } State.ready).2.native.calls
      = [NativeCall.functionCreate 100 0 "f" 0] :=
  ⟨rfl, rfl⟩

/-- C2, at the input that breaks it: `Function.create` called with five arguments
passes validation, its fourth argument is a `Module` handle wrapping the native
module 200, and the native constructor is called once with a null module: the
new function has no parent and no module's function list has changed. -/
theorem Create_drops_module_of_five_arguments :
    (ModuleWrapper.isInstance (.object 2 (some 200)) State.ready).1 = true ∧
    (JsValue.object 2 (some 200)).unwrap = some 200 ∧
    (FunctionWrapper.createRejects
        { args := [.object 0 (some 100), .number 3, .string "g", .object 2 (some 200), .null],
          holder := .undefined, isConstructCall := false } State.ready).1 = false ∧
    (FunctionWrapper.Create
        { args := [.object 0 (some 100), .number 3, .string "g", .object 2 (some 200), .null],
          holder := .undefined, isConstructCall := false } State.ready).2.native.calls
      = [NativeCall.functionCreate 100 3 "g" nullptr] ∧
    (FunctionWrapper.Create
        { args := [.object 0 (some 100), .number 3, .string "g", .object 2 (some 200), .null],
          holder := .undefined, isConstructCall := false } State.ready).2.native.modules = [] :=
  ⟨rfl, rfl, rfl, rfl, rfl⟩

/-- C3: whenever argument 0 of `Function.create` is not a `FunctionType`
instance, or argument 1 is not an unsigned 32-bit integer, or a supplied
argument 2 is not a string, or a supplied argument 3 is not a `Module` instance,
the call throws the `TypeError` of `Create`, returns no handle, and leaves the
native state as it was: no native call is made, no function is created, no
module is changed. -/
theorem Create_rejects_ill_shaped (info : CallInfo) (s : State)
    (h : (FunctionTypeWrapper.isInstance (info.get 0) s).1 = false ∨
      (info.get 1).IsUint32 = false ∨
      (2 < info.Length ∧ (info.get 2).IsString = false) ∨
      (3 < info.Length ∧
        (ModuleWrapper.isInstance (info.get 3)
          (FunctionTypeWrapper.isInstance (info.get 0) s).2).1 = false)) :
    (FunctionWrapper.Create info s).1 = .error (.typeError FunctionWrapper.createMessage) ∧
    (∀ handle, (FunctionWrapper.Create info s).1 ≠ .ok handle) ∧
    (FunctionWrapper.Create info s).2.native = s.native := by
  have hr := createRejects_of_ill_shaped info s h
  rw [Create_of_rejects info s hr]
  refine ⟨rfl, ?_, createRejects_native info s⟩
  intro handle hc
  cases hc

/-- Witness of C3: in the ready registry, a call whose third argument is a
number where a string is expected is rejected without a native call. -/
theorem Create_rejects_ill_shaped_witness :
    (FunctionWrapper.Create
        { args := [.object 0 (some 100), .number 0, .number 7],
          holder := .undefined, isConstructCall := false } State.ready).1
      = .error (.typeError FunctionWrapper.createMessage) ∧
    (∀ handle, (FunctionWrapper.Create
        { args := [.object 0 (some 100), .number 0, .number 7],
          holder := .undefined, isConstructCall := false } State.ready).1 ≠ .ok handle) ∧
    (FunctionWrapper.Create
        { args := [.object 0 (some 100), .number 0, .number 7],
          holder := .undefined, isConstructCall := false } State.ready).2.native
      = State.ready.native :=
  Create_rejects_ill_shaped
    { args := [.object 0 (some 100), .number 0, .number 7],
      holder := .undefined, isConstructCall := false } State.ready
    (Or.inr (Or.inr (Or.inl ⟨by decide, rfl⟩)))

/-- C4: for a `Function` handle (wrapping the native function `f` at address
`fn`) and a value that is not an unsigned 32-bit integer, assigning the value to
`callingConv` throws a `TypeError` and changes nothing: the whole state is the
one before the write, and reading `callingConv` before and after the failed
write gives the same value, the calling convention of `f`. -/
theorem setCallingConv_rejects_non_uint32 (s : State) (holder value : JsValue) (fn : Ptr)
    (f : NativeFunction) (hholder : holder.unwrap = some fn)
    (hf : s.native.function? fn = some f) (hvalue : value.IsUint32 = false) :
    (FunctionWrapper.setCallingConv holder value s).1
      = .error (.typeError "callingConv needs to be a value of llvm.CallingConv") ∧
    (FunctionWrapper.setCallingConv holder value s).2 = s ∧
    (FunctionWrapper.getCallingConv holder s).1 = .ok (.number (Int.ofNat f.callingConv)) ∧
    (FunctionWrapper.getCallingConv holder (FunctionWrapper.setCallingConv holder value s).2).1
      = (FunctionWrapper.getCallingConv holder s).1 := by
  have hset : FunctionWrapper.setCallingConv holder value s
      = (ThrowTypeError "callingConv needs to be a value of llvm.CallingConv", s) := by
    simp [FunctionWrapper.setCallingConv, hvalue]
  rw [hset]
  refine ⟨rfl, rfl, ?_, rfl⟩
  simp [FunctionWrapper.getCallingConv, hholder, hf]

/-- Witness of C4: a function created in the ready registry keeps the C calling
convention when the string "fast" is assigned to `callingConv`. -/
theorem setCallingConv_rejects_non_uint32_witness :
    (FunctionWrapper.setCallingConv (.object 6 (some 1)) (.string "fast")
        (FunctionWrapper.Create
          { args := [.object 0 (some 100), .number 0],
            holder := .undefined, isConstructCall := false } State.ready).2).1
      = .error (.typeError "callingConv needs to be a value of llvm.CallingConv") ∧
    (FunctionWrapper.setCallingConv (.object 6 (some 1)) (.string "fast")
        (FunctionWrapper.Create
          { args := [.object 0 (some 100), .number 0],
            holder := .undefined, isConstructCall := false } State.ready).2).2
      = (FunctionWrapper.Create
          { args := [.object 0 (some 100), .number 0],
            holder := .undefined, isConstructCall := false } State.ready).2 ∧
    (FunctionWrapper.getCallingConv (.object 6 (some 1))
        (FunctionWrapper.Create
          { args := [.object 0 (some 100), .number 0],
            holder := .undefined, isConstructCall := false } State.ready).2).1
      = .ok (.number (Int.ofNat
          ({ functionType := 100, linkage := 0, name := "", parent := 0, callingConv := 0,
             blocks := [], args := [], attrs := [] } : NativeFunction).callingConv)) ∧
    (FunctionWrapper.getCallingConv (.object 6 (some 1))
        (FunctionWrapper.setCallingConv (.object 6 (some 1)) (.string "fast")
          (FunctionWrapper.Create
            { args := [.object 0 (some 100), .number 0],
              holder := .undefined, isConstructCall := false } State.ready).2).2).1
      = (FunctionWrapper.getCallingConv (.object 6 (some 1))
          (FunctionWrapper.Create
            { args := [.object 0 (some 100), .number 0],
              holder := .undefined, isConstructCall := false } State.ready).2).1 :=
  setCallingConv_rejects_non_uint32 _ (.object 6 (some 1)) (.string "fast") 1 _ rfl rfl rfl

/-- C8, refuted as stated: a construct call of `New` whose argument is an
external reference holding the null pointer is not rejected; it returns a handle
whose native target is null. -/
theorem New_accepts_null_external :
    FunctionWrapper.New
        { args := [.external nullptr], holder := .object 6 none, isConstructCall := true }
      = .ok (.object 6 (some nullptr)) ∧
    (JsValue.object 6 (some nullptr)).unwrap = some nullptr ∧
    (FunctionWrapper.of nullptr State.ready).1 = .ok (.object 6 (some nullptr)) :=
  ⟨rfl, rfl, rfl⟩

/-- C8, amended: a call of `New` that succeeds had exactly one argument, an
external reference, and the native target of the resulting handle is the pointer
that external holds (so it is non-null whenever the external's pointer is); a
call that is not a construct call, or whose argument list is not one external
reference, throws a `TypeError` and constructs no handle; `of` goes through
`New` and always yields a handle on the pointer it was given. -/
theorem New_target_is_external_pointer (info : CallInfo) :
    (∀ handle, FunctionWrapper.New info = .ok handle →
      ∃ t p, info.isConstructCall = true ∧ info.args = [.external p] ∧
        handle = .object t (some p) ∧ handle.unwrap = some p) ∧
    ((info.isConstructCall = false ∨ ∀ p, info.args ≠ [.external p]) →
      ∃ msg, FunctionWrapper.New info = .error (.typeError msg)) ∧
    (∀ p s, (FunctionWrapper.of p s).1
      = .ok (.object (FunctionWrapper.functionTemplate s).1 (some p))) := by
  obtain ⟨args, holder, isConstructCall⟩ := info
  refine ⟨?_, ?_, fun p s => by rw [of_eq]⟩
  · intro handle h
    cases isConstructCall
    · simp [FunctionWrapper.New, ThrowTypeError] at h
    · match args, h with
      | [.external p], h =>
        match holder, h with
        | .object t w, h =>
          simp [FunctionWrapper.New, CallInfo.Length, CallInfo.get, JsValue.IsExternal,
            JsValue.externalValue, ThrowTypeError] at h
          exact ⟨t, p, rfl, rfl, h.symm, by rw [← h]; rfl⟩
        | .undefined, h | .null, h | .boolean _, h | .number _, h | .double _, h
        | .string _, h | .external _, h | .plain, h | .array _, h =>
          simp [FunctionWrapper.New, CallInfo.Length, CallInfo.get, JsValue.IsExternal,
            JsValue.externalValue, ThrowTypeError] at h
      | [], h => simp [FunctionWrapper.New, CallInfo.Length, ThrowTypeError] at h
      | [.undefined], h | [.null], h | [.boolean _], h | [.number _], h | [.double _], h
      | [.string _], h | [.object _ _], h | [.plain], h | [.array _], h =>
        simp [FunctionWrapper.New, CallInfo.Length, CallInfo.get, JsValue.IsExternal,
          ThrowTypeError] at h
      | _ :: _ :: _, h => simp [FunctionWrapper.New, CallInfo.Length, ThrowTypeError] at h
  · intro h
    rcases h with h | h
    · simp only at h
      subst h
      exact ⟨_, rfl⟩
    · cases isConstructCall
      · exact ⟨_, rfl⟩
      · refine ⟨"External Function Pointer required", ?_⟩
        match args, h with
        | [.external p], h => exact absurd rfl (h p)
        | [], _ => simp [FunctionWrapper.New, CallInfo.Length, ThrowTypeError]
        | [.undefined], _ | [.null], _ | [.boolean _], _ | [.number _], _ | [.double _], _
        | [.string _], _ | [.object _ _], _ | [.plain], _ | [.array _], _ =>
          simp [FunctionWrapper.New, CallInfo.Length, CallInfo.get, JsValue.IsExternal,
            ThrowTypeError]
        | _ :: _ :: _, _ => simp [FunctionWrapper.New, CallInfo.Length, ThrowTypeError]

/-! ## The registry invariant -/

theorem lookup_reset_ne (s : State) (c c' : ClassId) (t : Nat) (h : c' ≠ c) :
    (s.reset c t).lookup c' = s.lookup c' := by
  have hb : (c' == c) = false := by simpa using h
  simp [State.reset, State.lookup, List.lookup, hb]

theorem updateTemplate_lookup (s : State) (t : Nat) (f : FunctionTemplate → FunctionTemplate)
    (c : ClassId) : (s.updateTemplate t f).lookup c = s.lookup c := by
  simp [State.lookup, updateTemplate_cache]

theorem updateTemplate_get_ne (s : State) (t i : Nat) (f : FunctionTemplate → FunctionTemplate)
    (h : i ≠ t) : (s.updateTemplate t f).templates[i]? = s.templates[i]? := by
  unfold State.updateTemplate
  split
  · simp [List.getElem?_set_ne (Ne.symm h)]
  · rfl

theorem updateTemplate_get_self (s : State) (t : Nat) (f : FunctionTemplate → FunctionTemplate)
    (d : FunctionTemplate) (h : s.templates[t]? = some d) :
    (s.updateTemplate t f).templates[t]? = some (f d) := by
  unfold State.updateTemplate
  rw [h]
  have hlt : t < s.templates.length := (List.getElem?_eq_some.mp h).1
  simp [List.getElem?_set, hlt]

theorem newTemplate_get_old (s : State) (cb : String) (i : Nat) (d : FunctionTemplate)
    (h : s.templates[i]? = some d) : (s.newTemplate cb).2.templates[i]? = some d := by
  have hlt : i < s.templates.length := (List.getElem?_eq_some.mp h).1
  simp [State.newTemplate, List.getElem?_append_left hlt, h]

theorem newTemplate_get_new (s : State) (cb : String) :
    (s.newTemplate cb).2.templates[(s.newTemplate cb).1]? = some (FunctionTemplate.blank cb) := by
  simp [State.newTemplate]

theorem newTemplate_lookup (s : State) (cb : String) (c : ClassId) :
    (s.newTemplate cb).2.lookup c = s.lookup c := rfl

theorem className_ne_empty (c : ClassId) : c.className ≠ "" := by
  cases c <;> decide

theorem Grows.refl (s : State) : Grows s s := ⟨fun _ _ h => h, fun _ _ h => h⟩

theorem Grows.trans {s1 s2 s3 : State} (h12 : Grows s1 s2) (h23 : Grows s2 s3) : Grows s1 s3 :=
  ⟨fun i d h => h23.1 i d (h12.1 i d h), fun c t h => h23.2 c t (h12.2 c t h)⟩

theorem newTemplate_grows (s : State) (cb : String) : Grows s (s.newTemplate cb).2 :=
  ⟨fun i d h => newTemplate_get_old s cb i d h, fun _ _ h => h⟩

theorem newTemplate_registryOk (s : State) (cb : String) (hs : RegistryOk s) :
    RegistryOk (s.newTemplate cb).2 := by
  intro c t hc
  obtain ⟨d, hd, hn, hp⟩ := hs c t hc
  exact ⟨d, newTemplate_get_old s cb t d hd, hn, hp⟩

theorem registryOk_empty : RegistryOk State.empty := by
  intro c t h
  simp [State.empty, State.lookup, List.lookup] at h

theorem reset_templates (s : State) (c : ClassId) (t : Nat) :
    (s.reset c t).templates = s.templates := rfl

/-- Building a descriptor the way every lookup of the binding does (allocate a
blank template, fetch the parent's descriptor with `g`, apply the setters `f`,
store the template in the handle of `c`) keeps the registry invariant. -/
theorem build_good (s : State) (c : ClassId) (cb : String) (g : State → Nat × State)
    (f : Nat → FunctionTemplate → FunctionTemplate)
    (hs : RegistryOk s) (hc : s.lookup c = none)
    (hg1 : ∀ s, RegistryOk s → RegistryOk (g s).2 ∧ Grows s (g s).2 ∧
      ∀ c', c.depth ≤ c'.depth → (g s).2.lookup c' = s.lookup c')
    (hg2 : ∀ pc, c.parent = some pc → ∀ s, RegistryOk s → (g s).2.lookup pc = some (g s).1)
    (hname : ∀ p, (f p (FunctionTemplate.blank cb)).className = c.className)
    (hparent : ∀ pc, c.parent = some pc →
      ∀ p, (f p (FunctionTemplate.blank cb)).parent = some p) :
    RegistryOk (((g (s.newTemplate cb).2).2.updateTemplate (s.newTemplate cb).1
        (f (g (s.newTemplate cb).2).1)).reset c (s.newTemplate cb).1) ∧
    Grows s (((g (s.newTemplate cb).2).2.updateTemplate (s.newTemplate cb).1
        (f (g (s.newTemplate cb).2).1)).reset c (s.newTemplate cb).1) ∧
    ∀ c', c.depth < c'.depth →
      (((g (s.newTemplate cb).2).2.updateTemplate (s.newTemplate cb).1
        (f (g (s.newTemplate cb).2).1)).reset c (s.newTemplate cb).1).lookup c' = s.lookup c' := by
  have hs1 := newTemplate_registryOk s cb hs
  obtain ⟨hs2, hgrow, hframe⟩ := hg1 _ hs1
  have hblank := hgrow.1 _ _ (newTemplate_get_new s cb)
  have hc2 : (g (s.newTemplate cb).2).2.lookup c = none := by
    rw [hframe c (Nat.le_refl _), newTemplate_lookup, hc]
  have hnot : ∀ c' t, (g (s.newTemplate cb).2).2.lookup c' = some t → t ≠ (s.newTemplate cb).1 := by
    intro c' t hl ht
    obtain ⟨d, hd, hn, _⟩ := hs2 c' t hl
    rw [ht, hblank] at hd
    injection hd with hd
    rw [← hd] at hn
    exact className_ne_empty c' hn.symm
  have hother : ∀ c', c' ≠ c →
      (((g (s.newTemplate cb).2).2.updateTemplate (s.newTemplate cb).1
        (f (g (s.newTemplate cb).2).1)).reset c (s.newTemplate cb).1).lookup c'
        = (g (s.newTemplate cb).2).2.lookup c' := by
    intro c' hne
    rw [lookup_reset_ne _ _ _ _ hne, updateTemplate_lookup]
  refine ⟨?_, ?_, ?_⟩
  · intro c' t h
    by_cases hcc : c' = c
    · subst hcc
      rw [lookup_reset_self] at h
      injection h with h
      subst h
      refine ⟨f (g (s.newTemplate cb).2).1 (FunctionTemplate.blank cb), ?_, hname _, ?_⟩
      · rw [reset_templates]
        exact updateTemplate_get_self _ _ _ _ hblank
      · intro pc hpc
        have hl := hg2 pc hpc _ hs1
        have hne : pc ≠ c' := by
          intro he
          rw [he, hc2] at hl
          cases hl
        exact ⟨_, by rw [hother pc hne]; exact hl, hparent pc hpc _⟩
    · rw [hother c' hcc] at h
      obtain ⟨d, hd, hn, hp⟩ := hs2 c' t h
      refine ⟨d, ?_, hn, ?_⟩
      · rw [reset_templates, updateTemplate_get_ne _ _ _ _ (hnot c' t h)]
        exact hd
      · intro pc hpc
        obtain ⟨tp, hl, hdp⟩ := hp pc hpc
        have hne : pc ≠ c := by
          intro he
          rw [he, hc2] at hl
          cases hl
        exact ⟨tp, by rw [hother pc hne]; exact hl, hdp⟩
  · refine ⟨?_, ?_⟩
    · intro i d h
      have hlt : i < s.templates.length := (List.getElem?_eq_some.mp h).1
      have hne : i ≠ (s.newTemplate cb).1 := by
        simp only [State.newTemplate]
        omega
      rw [reset_templates, updateTemplate_get_ne _ _ _ _ hne]
      exact hgrow.1 i d (newTemplate_get_old s cb i d h)
    · intro c' t h
      have hne : c' ≠ c := by
        intro he
        rw [he, hc] at h
        cases h
      rw [hother c' hne]
      exact hgrow.2 c' t h
  · intro c' hd
    have hne : c' ≠ c := by
      intro he
      rw [he] at hd
      exact Nat.lt_irrefl _ hd
    rw [hother c' hne, hframe c' (Nat.le_of_lt hd), newTemplate_lookup]

theorem rootTemplate_good (c : ClassId) (hroot : c.parent = none) :
    GoodGetter c (rootTemplate c) := by
  intro s hs
  cases hc : s.lookup c with
  | some t =>
    rw [rootTemplate_of_cached c s t hc]
    exact ⟨hs, Grows.refl s, hc, fun _ _ => rfl⟩
  | none =>
    have hb := build_good s c c.className (fun s => (0, s))
      (fun _ d => { d with className := c.className, internalFieldCount := 1 }) hs hc
      (fun s hs => ⟨hs, Grows.refl s, fun _ _ => rfl⟩)
      (fun pc hpc => by rw [hroot] at hpc; cases hpc)
      (fun _ => rfl)
      (fun pc hpc => by rw [hroot] at hpc; cases hpc)
    have he : rootTemplate c s
        = ((s.newTemplate c.className).1,
            (((s.newTemplate c.className).2.updateTemplate (s.newTemplate c.className).1
              (fun d => { d with className := c.className, internalFieldCount := 1 })).reset c
              (s.newTemplate c.className).1)) := by
      unfold rootTemplate
      rw [hc]
    rw [he]
    exact ⟨hb.1, hb.2.1, lookup_reset_self _ _ _, hb.2.2⟩

theorem derivedTemplate_good (c pc : ClassId) (g : State → Nat × State)
    (hpar : c.parent = some pc) (hdepth : c.depth = pc.depth + 1) (hg : GoodGetter pc g) :
    GoodGetter c (derivedTemplate c g) := by
  intro s hs
  cases hc : s.lookup c with
  | some t =>
    rw [derivedTemplate_of_cached c g s t hc]
    exact ⟨hs, Grows.refl s, hc, fun _ _ => rfl⟩
  | none =>
    have hb := build_good s c c.className g
      (fun p d => { d with className := c.className, internalFieldCount := 1, parent := some p })
      hs hc
      (fun s hs => ⟨(hg s hs).1, (hg s hs).2.1,
        fun c' hd => (hg s hs).2.2.2 c' (by omega)⟩)
      (fun pc' hpc s hs => by
        rw [hpar] at hpc
        injection hpc with hpc
        subst hpc
        exact (hg s hs).2.2.1)
      (fun _ => rfl)
      (fun _ _ _ => rfl)
    have he : derivedTemplate c g s
        = ((s.newTemplate c.className).1,
            (((g (s.newTemplate c.className).2).2.updateTemplate (s.newTemplate c.className).1
              (fun d => { d with className := c.className, internalFieldCount := 1,
                                 parent := some (g (s.newTemplate c.className).2).1 })).reset c
              (s.newTemplate c.className).1)) := by
      unfold derivedTemplate
      rw [hc]
    rw [he]
    exact ⟨hb.1, hb.2.1, lookup_reset_self _ _ _, hb.2.2⟩

theorem valueTemplate_good : GoodGetter .Value ValueWrapper.valueTemplate :=
  rootTemplate_good .Value rfl

theorem constantTemplate_good : GoodGetter .Constant ConstantWrapper.constantTemplate :=
  derivedTemplate_good .Constant .Value _ rfl rfl valueTemplate_good

theorem functionTypeTemplate_good :
    GoodGetter .FunctionType FunctionTypeWrapper.functionTypeTemplate :=
  derivedTemplate_good .FunctionType .Type_ _ rfl rfl (rootTemplate_good .Type_ rfl)

theorem moduleTemplate_good : GoodGetter .Module ModuleWrapper.moduleTemplate :=
  rootTemplate_good .Module rfl

theorem basicBlockTemplate_good :
    GoodGetter .BasicBlock BasicBlockWrapper.basicBlockTemplate :=
  derivedTemplate_good .BasicBlock .Value _ rfl rfl valueTemplate_good

theorem argumentTemplate_good : GoodGetter .Argument ArgumentWrapper.argumentTemplate :=
  derivedTemplate_good .Argument .Value _ rfl rfl valueTemplate_good

theorem functionTemplate_good : GoodGetter .Function FunctionWrapper.functionTemplate := by
  intro s hs
  cases hc : s.lookup .Function with
  | some t =>
    rw [functionTemplate_of_cached s t hc]
    exact ⟨hs, Grows.refl s, hc, fun _ _ => rfl⟩
  | none =>
    have hb := build_good s .Function "FunctionWrapper::New" ConstantWrapper.constantTemplate
      (fun p d => { d with
        className := "Function",
        internalFieldCount := 1,
        parent := some p,
        staticMethods := d.staticMethods ++ ["create"],
        prototypeMethods := d.prototypeMethods ++
          ["addBasicBlock", "addFnAttr", "getArguments", "getEntryBlock", "viewCFG"],
        accessors := d.accessors ++ ["callingConv"] })
      hs hc
      (fun s hs => ⟨(constantTemplate_good s hs).1, (constantTemplate_good s hs).2.1,
        fun c' hd => (constantTemplate_good s hs).2.2.2 c' hd⟩)
      (fun pc' hpc s hs => by
        injection hpc with hpc
        subst hpc
        exact (constantTemplate_good s hs).2.2.1)
      (fun _ => rfl)
      (fun _ _ _ => rfl)
    have he : FunctionWrapper.functionTemplate s
        = ((s.newTemplate "FunctionWrapper::New").1,
            (((ConstantWrapper.constantTemplate (s.newTemplate "FunctionWrapper::New").2).2.updateTemplate
              (s.newTemplate "FunctionWrapper::New").1
              (fun d => { d with
                className := "Function",
                internalFieldCount := 1,
                parent := some
                  (ConstantWrapper.constantTemplate (s.newTemplate "FunctionWrapper::New").2).1,
                staticMethods := d.staticMethods ++ ["create"],
                prototypeMethods := d.prototypeMethods ++
                  ["addBasicBlock", "addFnAttr", "getArguments", "getEntryBlock", "viewCFG"],
                accessors := d.accessors ++ ["callingConv"] })).reset .Function
              (s.newTemplate "FunctionWrapper::New").1)) := by
      unfold FunctionWrapper.functionTemplate
      rw [hc]
    rw [he]
    exact ⟨hb.1, hb.2.1, lookup_reset_self _ _ _, hb.2.2⟩

theorem registryOk_with_native (s : State) (n : NativeState) (hs : RegistryOk s) :
    RegistryOk { s with native := n } :=
  fun c t h => hs c t h

/-! ## `isInstance` along the parent chain -/

theorem inheritsFrom_self (ts : List FunctionTemplate) (k t : Nat) :
    inheritsFrom ts (k + 1) t t = true := by
  simp [inheritsFrom]

theorem inheritsFrom_step (ts : List FunctionTemplate) (k t p target : Nat)
    (d : FunctionTemplate) (hd : ts[t]? = some d) (hp : d.parent = some p)
    (h : inheritsFrom ts k p target = true) : inheritsFrom ts (k + 1) t target = true := by
  unfold inheritsFrom
  split_ifs
  · rfl
  · simp only [hd, hp]
    exact h

/-- In a sound registry, the `Function` descriptor links to the `Constant`
descriptor, which links to the `Value` descriptor, and a handle instantiated
from the `Function` template is an instance of all three classes. -/
theorem function_handle_instance_chain (s : State) (t : Nat) (w : Option Ptr)
    (hs : RegistryOk s) (ht : s.lookup .Function = some t) :
    (∃ dF tC dC tV,
      s.templates[t]? = some dF ∧ dF.className = "Function" ∧ dF.parent = some tC ∧
      s.lookup .Constant = some tC ∧
      s.templates[tC]? = some dC ∧ dC.className = "Constant" ∧ dC.parent = some tV ∧
      s.lookup .Value = some tV) ∧
    (FunctionWrapper.isInstance (.object t w) s).1 = true ∧
    (ConstantWrapper.isInstance (.object t w) s).1 = true ∧
    (ValueWrapper.isInstance (.object t w) s).1 = true := by
  obtain ⟨dF, hdF, hnF, hpF⟩ := hs .Function t ht
  obtain ⟨tC, hlC, hparF⟩ := hpF .Constant rfl
  obtain ⟨dC, hdC, hnC, hpC⟩ := hs .Constant tC hlC
  obtain ⟨tV, hlV, hparC⟩ := hpC .Value rfl
  have hltF : t < s.templates.length := (List.getElem?_eq_some.mp hdF).1
  have hltC : tC < s.templates.length := (List.getElem?_eq_some.mp hdC).1
  have hne : t ≠ tC := by
    intro he
    rw [he, hdC] at hdF
    injection hdF with hdF
    rw [hdF, hnF] at hnC
    exact absurd hnC (by decide)
  obtain ⟨k, hk⟩ : ∃ k, s.templates.length = k + 2 := ⟨s.templates.length - 2, by omega⟩
  refine ⟨⟨dF, tC, dC, tV, hdF, hnF, hparF, hlC, hdC, hnC, hparC, hlV⟩, ?_, ?_, ?_⟩
  · simp only [FunctionWrapper.isInstance, isInstanceVia, functionTemplate_of_cached s t ht,
      HasInstance]
    exact inheritsFrom_self _ _ _
  · simp only [ConstantWrapper.isInstance, isInstanceVia, ConstantWrapper.constantTemplate,
      derivedTemplate_of_cached _ _ s tC hlC, HasInstance, hk]
    exact inheritsFrom_step _ _ _ _ _ dF hdF hparF (inheritsFrom_self _ _ _)
  · simp only [ValueWrapper.isInstance, isInstanceVia, ValueWrapper.valueTemplate,
      rootTemplate_of_cached _ s tV hlV, HasInstance, hk]
    exact inheritsFrom_step _ _ _ _ _ dF hdF hparF
      (inheritsFrom_step _ _ _ _ _ dC hdC hparC (inheritsFrom_self _ _ _))

theorem functionTemplateCalls_of_cached (n : Nat) (s : State) (t : Nat)
    (h : s.lookup .Function = some t) :
    FunctionWrapper.functionTemplateCalls n s = (List.replicate n t, s) := by
  induction n with
  | zero => rfl
  | succ n ih =>
    simp [FunctionWrapper.functionTemplateCalls, functionTemplate_of_cached s t h, ih,
      List.replicate_succ]

/-! ## The `Function` descriptor: built once, then fetched -/

theorem rootTemplate_keeps (c : ClassId) (s : State) (i : Nat) (d : FunctionTemplate)
    (h : s.templates[i]? = some d) : (rootTemplate c s).2.templates[i]? = some d := by
  cases hc : s.lookup c with
  | some t =>
    rw [rootTemplate_of_cached c s t hc]
    exact h
  | none =>
    have hlt : i < s.templates.length := (List.getElem?_eq_some.mp h).1
    have hne : i ≠ (s.newTemplate c.className).1 := by
      simp only [State.newTemplate]
      omega
    unfold rootTemplate
    rw [hc]
    dsimp only
    rw [reset_templates, updateTemplate_get_ne _ _ _ _ hne]
    exact newTemplate_get_old s _ i d h

theorem derivedTemplate_keeps (c : ClassId) (p : State → Nat × State)
    (hp : ∀ (s : State) (i : Nat) (d : FunctionTemplate),
      s.templates[i]? = some d → (p s).2.templates[i]? = some d)
    (s : State) (i : Nat) (d : FunctionTemplate) (h : s.templates[i]? = some d) :
    (derivedTemplate c p s).2.templates[i]? = some d := by
  cases hc : s.lookup c with
  | some t =>
    rw [derivedTemplate_of_cached c p s t hc]
    exact h
  | none =>
    have hlt : i < s.templates.length := (List.getElem?_eq_some.mp h).1
    have hne : i ≠ (s.newTemplate c.className).1 := by
      simp only [State.newTemplate]
      omega
    unfold derivedTemplate
    rw [hc]
    dsimp only
    rw [reset_templates, updateTemplate_get_ne _ _ _ _ hne]
    exact hp _ i d (newTemplate_get_old s _ i d h)

theorem constantTemplate_keeps (s : State) (i : Nat) (d : FunctionTemplate)
    (h : s.templates[i]? = some d) :
    (ConstantWrapper.constantTemplate s).2.templates[i]? = some d :=
  derivedTemplate_keeps _ _ (rootTemplate_keeps .Value) s i d h

/-- The call of `functionTemplate` that finds the handle empty allocates a new
template and builds the descriptor of lines 39-52 in it: the callback `New`, the
class name "Function", one internal field, the `Constant` descriptor as parent,
and the operation table. -/
theorem functionTemplate_builds (s : State) (hc : s.lookup .Function = none) :
    (FunctionWrapper.functionTemplate s).1 = s.templates.length ∧
    (FunctionWrapper.functionTemplate s).2.templates[(FunctionWrapper.functionTemplate s).1]?
      = some
          { callback := "FunctionWrapper::New",
            className := "Function",
            internalFieldCount := 1,
            parent := some
              (ConstantWrapper.constantTemplate (s.newTemplate "FunctionWrapper::New").2).1,
            staticMethods := ["create"],
            prototypeMethods :=
              ["addBasicBlock", "addFnAttr", "getArguments", "getEntryBlock", "viewCFG"],
            accessors := ["callingConv"] } ∧
    (FunctionWrapper.functionTemplate s).2.lookup .Constant
      = some (ConstantWrapper.constantTemplate (s.newTemplate "FunctionWrapper::New").2).1 := by
  have hblank := constantTemplate_keeps _ _ _ (newTemplate_get_new s "FunctionWrapper::New")
  unfold FunctionWrapper.functionTemplate
  rw [hc]
  dsimp only
  refine ⟨rfl, ?_, ?_⟩
  · rw [reset_templates, updateTemplate_get_self _ _ _ _ hblank]
    rfl
  · rw [lookup_reset_ne _ _ _ _ (by decide), updateTemplate_lookup]
    exact derivedTemplate_lookup _ _ _

/-- C6: from any state of the cache, every call in a run of calls of
`functionTemplate` returns the descriptor the first call returned, and the
state after the run is the state after the first call: later calls neither
rebuild nor change anything.  After the first call, and after the whole run,
the persistent handle is filled with the descriptor that was returned, and the
template stored under it is the one the first call left there.  A call that
finds the handle filled returns the cached descriptor and leaves the state
untouched; a call that finds it empty allocates a new template and builds the
descriptor in it (class name "Function", one internal field, the cached
`Constant` descriptor as parent link, the operation table of lines 46-52).  So
a descriptor is built only by a call that finds the cache empty, and two
consecutive calls return the same descriptor. -/
theorem functionTemplate_singleton (s : State) (n : Nat) :
    (FunctionWrapper.functionTemplateCalls (n + 1) s).1
      = List.replicate (n + 1) (FunctionWrapper.functionTemplate s).1 ∧
    (FunctionWrapper.functionTemplateCalls (n + 1) s).2 = (FunctionWrapper.functionTemplate s).2 ∧
    (FunctionWrapper.functionTemplate s).2.lookup .Function
      = some (FunctionWrapper.functionTemplate s).1 ∧
    (FunctionWrapper.functionTemplateCalls (n + 1) s).2.lookup .Function
      = some (FunctionWrapper.functionTemplate s).1 ∧
    (FunctionWrapper.functionTemplateCalls (n + 1) s).2.templates[
        (FunctionWrapper.functionTemplate s).1]?
      = (FunctionWrapper.functionTemplate s).2.templates[(FunctionWrapper.functionTemplate s).1]? ∧
    (∀ t, s.lookup .Function = some t → FunctionWrapper.functionTemplate s = (t, s)) ∧
    (s.lookup .Function = none →
      (FunctionWrapper.functionTemplate s).1 = s.templates.length ∧
      (FunctionWrapper.functionTemplate s).2.templates[(FunctionWrapper.functionTemplate s).1]?
        = some
            { callback := "FunctionWrapper::New",
              className := "Function",
              internalFieldCount := 1,
              parent := some
                (ConstantWrapper.constantTemplate (s.newTemplate "FunctionWrapper::New").2).1,
              staticMethods := ["create"],
              prototypeMethods :=
                ["addBasicBlock", "addFnAttr", "getArguments", "getEntryBlock", "viewCFG"],
              accessors := ["callingConv"] } ∧
      (FunctionWrapper.functionTemplate s).2.lookup .Constant
        = some (ConstantWrapper.constantTemplate (s.newTemplate "FunctionWrapper::New").2).1) ∧
    FunctionWrapper.functionTemplate (FunctionWrapper.functionTemplate s).2
      = ((FunctionWrapper.functionTemplate s).1, (FunctionWrapper.functionTemplate s).2) ∧
    (FunctionWrapper.functionTemplate (FunctionWrapper.functionTemplate s).2).1
      = (FunctionWrapper.functionTemplate s).1 := by
  have hrest := functionTemplateCalls_of_cached n _ _ (functionTemplate_lookup s)
  have hstate : (FunctionWrapper.functionTemplateCalls (n + 1) s).2
      = (FunctionWrapper.functionTemplate s).2 := by
    simp [FunctionWrapper.functionTemplateCalls, hrest]
  refine ⟨?_, hstate, functionTemplate_lookup s, ?_, ?_,
    fun t h => functionTemplate_of_cached s t h, fun h => functionTemplate_builds s h, ?_, ?_⟩
  · simp [FunctionWrapper.functionTemplateCalls, hrest, List.replicate_succ]
  · rw [hstate]
    exact functionTemplate_lookup s
  · rw [hstate]
  · rw [functionTemplate_idem]
  · rw [functionTemplate_idem]

/-- Witness of C6: in a fresh process, two calls of `functionTemplate` both
return template 0; the handle holds 0 afterwards and template 0 is the built
`Function` descriptor, whose parent is the `Constant` descriptor, template 1. -/
theorem functionTemplate_singleton_witness :
    (FunctionWrapper.functionTemplateCalls 2 State.empty).1 = [0, 0] ∧
    (FunctionWrapper.functionTemplateCalls 2 State.empty).2
      = (FunctionWrapper.functionTemplate State.empty).2 ∧
    (FunctionWrapper.functionTemplateCalls 2 State.empty).2.lookup .Function = some 0 ∧
    (FunctionWrapper.functionTemplateCalls 2 State.empty).2.lookup .Constant = some 1 ∧
    (FunctionWrapper.functionTemplateCalls 2 State.empty).2.templates[0]?
      = some
          { callback := "FunctionWrapper::New",
            className := "Function",
            internalFieldCount := 1,
            parent := some 1,
            staticMethods := ["create"],
            prototypeMethods :=
              ["addBasicBlock", "addFnAttr", "getArguments", "getEntryBlock", "viewCFG"],
            accessors := ["callingConv"] } := by
  obtain ⟨h1, h2, _, h4, h5, _, h7, _, _⟩ := functionTemplate_singleton State.empty 1
  obtain ⟨_, hb, hp⟩ := h7 rfl
  refine ⟨h1, h2, h4, ?_, ?_⟩
  · rw [h2]
    exact hp
  · exact h5.trans hb

/-- C7: in a sound registry, `Function.create` called with exactly two
arguments, a `FunctionType` handle and the unsigned integer 0, succeeds.  The
handle it returns is instantiated from the `Function` descriptor, whose parent
is the `Constant` descriptor, whose parent is the root `Value` descriptor, and
it is an instance of `Function`, of `Constant` and of `Value`. -/
theorem Create_two_arguments_instance_of_ancestors (s : State) (ft : JsValue)
    (functionType : Ptr) (hs : RegistryOk s)
    (hft : (FunctionTypeWrapper.isInstance ft s).1 = true)
    (hu : ft.unwrap = some functionType) :
    ∃ handle tF fn dF tC dC tV,
      (FunctionWrapper.Create
        { args := [ft, .number 0], holder := .undefined, isConstructCall := false } s).1
        = .ok handle ∧
      handle = .object tF (some fn) ∧
      (FunctionWrapper.Create
        { args := [ft, .number 0], holder := .undefined, isConstructCall := false } s).2.lookup .Function = some tF ∧
      (FunctionWrapper.Create
        { args := [ft, .number 0], holder := .undefined, isConstructCall := false } s).2.templates[tF]? = some dF ∧
      dF.className = "Function" ∧ dF.parent = some tC ∧
      (FunctionWrapper.Create
        { args := [ft, .number 0], holder := .undefined, isConstructCall := false } s).2.lookup .Constant = some tC ∧
      (FunctionWrapper.Create
        { args := [ft, .number 0], holder := .undefined, isConstructCall := false } s).2.templates[tC]? = some dC ∧
      dC.className = "Constant" ∧ dC.parent = some tV ∧
      (FunctionWrapper.Create
        { args := [ft, .number 0], holder := .undefined, isConstructCall := false } s).2.lookup .Value = some tV ∧
      (FunctionWrapper.isInstance handle (FunctionWrapper.Create
        { args := [ft, .number 0], holder := .undefined, isConstructCall := false } s).2).1
        = true ∧
      (ConstantWrapper.isInstance handle (FunctionWrapper.Create
        { args := [ft, .number 0], holder := .undefined, isConstructCall := false } s).2).1
        = true ∧
      (ValueWrapper.isInstance handle (FunctionWrapper.Create
        { args := [ft, .number 0], holder := .undefined, isConstructCall := false } s).2).1
        = true := by
  have hg : FunctionWrapper.createRejects
      { args := [ft, .number 0], holder := .undefined, isConstructCall := false } s
      = (false, (FunctionTypeWrapper.isInstance ft s).2) := by
    simp [FunctionWrapper.createRejects, CallInfo.Length, CallInfo.get, hft, JsValue.IsUint32]
  have hc := Create_of_accepts
    { args := [ft, .number 0], holder := .undefined, isConstructCall := false } s functionType
    nullptr (by rw [hg]) (by simpa [CallInfo.get] using hu) (by simp [CallInfo.Length])
  rw [hc, of_eq, hg]
  have hs1 : RegistryOk (FunctionTypeWrapper.isInstance ft s).2 :=
    (functionTypeTemplate_good s hs).1
  have hgood := functionTemplate_good _ (registryOk_with_native _
    ((FunctionTypeWrapper.isInstance ft s).2.native.functionCreate functionType
      (CallInfo.get { args := [ft, .number 0], holder := .undefined, isConstructCall := false }
        1).toUint32
      (if CallInfo.Length
          { args := [ft, .number 0], holder := .undefined, isConstructCall := false } > 2 then
        (CallInfo.get { args := [ft, .number 0], holder := .undefined, isConstructCall := false }
          2).ToStdString else "") nullptr).2 hs1)
  obtain ⟨⟨dF, tC, dC, tV, c1, c2, c3, c4, c5, c6, c7, c8⟩, h1, h2, h3⟩ :=
    function_handle_instance_chain _ _ _ hgood.1 hgood.2.2.1
  exact ⟨_, _, _, dF, tC, dC, tV, rfl, rfl, hgood.2.2.1, c1, c2, c3, c4, c5, c6, c7, c8,
    h1, h2, h3⟩

/-- Witness of C7: in the ready registry, `Function.create` on the function
type handle of template 0 yields an instance of `Function`, `Constant` and
`Value`. -/
theorem Create_two_arguments_instance_of_ancestors_witness :
    ∃ handle tF fn dF tC dC tV,
      (FunctionWrapper.Create
        { args := [.object 0 (some 100), .number 0], holder := .undefined,
          isConstructCall := false } State.ready).1
        = .ok handle ∧
      handle = .object tF (some fn) ∧
      (FunctionWrapper.Create
        { args := [.object 0 (some 100), .number 0], holder := .undefined,
          isConstructCall := false } State.ready).2.lookup .Function = some tF ∧
      (FunctionWrapper.Create
        { args := [.object 0 (some 100), .number 0], holder := .undefined,
          isConstructCall := false } State.ready).2.templates[tF]? = some dF ∧
      dF.className = "Function" ∧ dF.parent = some tC ∧
      (FunctionWrapper.Create
        { args := [.object 0 (some 100), .number 0], holder := .undefined,
          isConstructCall := false } State.ready).2.lookup .Constant = some tC ∧
      (FunctionWrapper.Create
        { args := [.object 0 (some 100), .number 0], holder := .undefined,
          isConstructCall := false } State.ready).2.templates[tC]? = some dC ∧
      dC.className = "Constant" ∧ dC.parent = some tV ∧
      (FunctionWrapper.Create
        { args := [.object 0 (some 100), .number 0], holder := .undefined,
          isConstructCall := false } State.ready).2.lookup .Value = some tV ∧
      (FunctionWrapper.isInstance handle (FunctionWrapper.Create
        { args := [.object 0 (some 100), .number 0], holder := .undefined,
          isConstructCall := false } State.ready).2).1
        = true ∧
      (ConstantWrapper.isInstance handle (FunctionWrapper.Create
        { args := [.object 0 (some 100), .number 0], holder := .undefined,
          isConstructCall := false } State.ready).2).1
        = true ∧
      (ValueWrapper.isInstance handle (FunctionWrapper.Create
        { args := [.object 0 (some 100), .number 0], holder := .undefined,
          isConstructCall := false } State.ready).2).1
        = true :=
  Create_two_arguments_instance_of_ancestors State.ready (.object 0 (some 100)) 100
    ((argumentTemplate_good _ ((basicBlockTemplate_good _ ((moduleTemplate_good _
      ((functionTypeTemplate_good _ registryOk_empty).1)).1)).1)).1)
    rfl rfl

/-! ## Block lists -/

theorem lookup_assocUpdate_self {β : Type} (k : Ptr) (g : β → β) (l : List (Ptr × β)) :
    (assocUpdate k g l).lookup k = (l.lookup k).map g := by
  induction l with
  | nil => rfl
  | cons e rest ih =>
    obtain ⟨k', v⟩ := e
    by_cases h : k' = k
    · subst h
      simp [assocUpdate, List.lookup]
    · have hb : (k == k') = false := by simpa using (Ne.symm h)
      simp [assocUpdate, h, List.lookup, hb, ih]

theorem pushBackBlock_function (n : NativeState) (fn block : Ptr) (f : NativeFunction)
    (hf : n.function? fn = some f) :
    (n.pushBackBlock fn block).function? fn = some { f with blocks := f.blocks ++ [block] } := by
  unfold NativeState.function? at hf
  simp [NativeState.function?, NativeState.pushBackBlock, lookup_assocUpdate_self, hf]

theorem unwrap_of_instance (s : State) (t : Nat) (v : JsValue) (hw : v.Wrapped = true)
    (hi : HasInstance s t v = true) : ∃ p, v.unwrap = some p := by
  match v, hw, hi with
  | .object _ (some p), _, _ => exact ⟨p, rfl⟩
  | .object _ none, hw, _ => simp [JsValue.Wrapped] at hw
  | .undefined, _, hi | .null, _, hi | .boolean _, _, hi | .number _, _, hi | .double _, _, hi
  | .string _, _, hi | .external _, _, hi | .plain, _, hi | .array _, _, hi =>
    simp [HasInstance] at hi

theorem addBasicBlock_of_instance (s : State) (holder b : JsValue) (fn block : Ptr)
    (hi : (BasicBlockWrapper.isInstance b s).1 = true) (hb : b.unwrap = some block)
    (hh : holder.unwrap = some fn) :
    FunctionWrapper.addBasicBlock { args := [b], holder := holder, isConstructCall := false } s
      = (.ok .undefined,
          { (BasicBlockWrapper.isInstance b s).2 with
            native := (BasicBlockWrapper.isInstance b s).2.native.pushBackBlock fn block }) := by
  simp [FunctionWrapper.addBasicBlock, CallInfo.Length, CallInfo.get, hi, hb, hh]

theorem addBasicBlock_of_rejected (s : State) (holder : JsValue) (args : List JsValue)
    (h : ¬ (args.length = 1 ∧ (BasicBlockWrapper.isInstance (args.getD 0 .undefined) s).1 = true)) :
    (FunctionWrapper.addBasicBlock
        { args := args, holder := holder, isConstructCall := false } s).1
      = .error (.typeError "addBasicBlock needs to be called with: block: BasicBlock") ∧
    (FunctionWrapper.addBasicBlock
        { args := args, holder := holder, isConstructCall := false } s).2.native = s.native := by
  by_cases hl : args.length = 1
  · match args, hl, h with
    | [b], _, h =>
      have hi : (BasicBlockWrapper.isInstance b s).1 = false := by
        cases hv : (BasicBlockWrapper.isInstance b s).1
        · rfl
        · exact absurd ⟨rfl, hv⟩ h
      have hn : (BasicBlockWrapper.isInstance b s).2.native = s.native :=
        isInstanceVia_native _ basicBlockTemplate_native _ _
      simp [FunctionWrapper.addBasicBlock, CallInfo.Length, CallInfo.get, hi, ThrowTypeError, hn]
  · simp [FunctionWrapper.addBasicBlock, CallInfo.Length, hl, ThrowTypeError]

/-- C9: on a `Function` handle (wrapping the native function `f` at `fn`), with
argument values that are complete, `addBasicBlock` succeeds exactly when the
argument list has exactly one element and that element is a `BasicBlock`
instance; then the function's block list is the old list with the block that
element wraps appended at the end; in every other case the call throws a
`TypeError` and the native state, the block list included, is unchanged. -/
theorem addBasicBlock_appends_or_rejects (s : State) (holder : JsValue) (fn : Ptr)
    (f : NativeFunction) (args : List JsValue) (hholder : holder.unwrap = some fn)
    (hf : s.native.function? fn = some f) (hargs : ∀ v ∈ args, v.Wrapped = true) :
    ((FunctionWrapper.addBasicBlock
        { args := args, holder := holder, isConstructCall := false } s).1 = .ok .undefined ↔
      (args.length = 1 ∧
        (BasicBlockWrapper.isInstance (args.getD 0 .undefined) s).1 = true)) ∧
    ((args.length = 1 ∧ (BasicBlockWrapper.isInstance (args.getD 0 .undefined) s).1 = true) →
      ∃ block, (args.getD 0 .undefined).unwrap = some block ∧
        (FunctionWrapper.addBasicBlock
          { args := args, holder := holder, isConstructCall := false } s).2.native.function? fn
          = some { f with blocks := f.blocks ++ [block] }) ∧
    (¬ (args.length = 1 ∧ (BasicBlockWrapper.isInstance (args.getD 0 .undefined) s).1 = true) →
      (FunctionWrapper.addBasicBlock
          { args := args, holder := holder, isConstructCall := false } s).1
        = .error (.typeError "addBasicBlock needs to be called with: block: BasicBlock") ∧
      (FunctionWrapper.addBasicBlock
          { args := args, holder := holder, isConstructCall := false } s).2.native = s.native ∧
      (FunctionWrapper.addBasicBlock
          { args := args, holder := holder, isConstructCall := false } s).2.native.function? fn
        = some f) := by
  have hok : (args.length = 1 ∧
      (BasicBlockWrapper.isInstance (args.getD 0 .undefined) s).1 = true) →
      ∃ block, (args.getD 0 .undefined).unwrap = some block ∧
        FunctionWrapper.addBasicBlock
            { args := args, holder := holder, isConstructCall := false } s
          = (.ok .undefined,
              { (BasicBlockWrapper.isInstance (args.getD 0 .undefined) s).2 with
                native := (BasicBlockWrapper.isInstance (args.getD 0 .undefined)
                  s).2.native.pushBackBlock fn block }) := by
    rintro ⟨hl, hi⟩
    match args, hl, hargs, hi with
    | [b], _, hargs, hi =>
      obtain ⟨block, hb⟩ := unwrap_of_instance _ _ b (hargs b (List.mem_singleton.mpr rfl)) hi
      exact ⟨block, hb, addBasicBlock_of_instance s holder b fn block hi hb hholder⟩
  refine ⟨⟨?_, ?_⟩, ?_, ?_⟩
  · intro h
    by_contra hn
    rw [(addBasicBlock_of_rejected s holder args hn).1] at h
    cases h
  · intro h
    obtain ⟨block, _, he⟩ := hok h
    rw [he]
  · intro h
    obtain ⟨block, hb, he⟩ := hok h
    refine ⟨block, hb, ?_⟩
    rw [he]
    apply pushBackBlock_function
    have hn : (BasicBlockWrapper.isInstance (args.getD 0 .undefined) s).2.native = s.native :=
      isInstanceVia_native _ basicBlockTemplate_native _ _
    rw [hn]
    exact hf
  · intro h
    obtain ⟨h1, h2⟩ := addBasicBlock_of_rejected s holder args h
    exact ⟨h1, h2, by rw [h2]; exact hf⟩

/-- Witness of C9: on the function of the fixture, `addBasicBlock` with the
block handle `object 3 (some 300)` appends block 300. -/
theorem addBasicBlock_appends_or_rejects_witness :
    ((FunctionWrapper.addBasicBlock
        { args := [.object 3 (some 300)], holder := .object 6 (some 1),
          isConstructCall := false } State.withFunction).1 = .ok .undefined ↔
      (([JsValue.object 3 (some 300)] : List JsValue).length = 1 ∧
        (BasicBlockWrapper.isInstance
          (([JsValue.object 3 (some 300)] : List JsValue).getD 0 .undefined)
          State.withFunction).1 = true)) ∧
    ((([JsValue.object 3 (some 300)] : List JsValue).length = 1 ∧
        (BasicBlockWrapper.isInstance
          (([JsValue.object 3 (some 300)] : List JsValue).getD 0 .undefined)
          State.withFunction).1 = true) →
      ∃ block, (([JsValue.object 3 (some 300)] : List JsValue).getD 0 .undefined).unwrap
          = some block ∧
        (FunctionWrapper.addBasicBlock
          { args := [.object 3 (some 300)], holder := .object 6 (some 1),
            isConstructCall := false } State.withFunction).2.native.function? 1
          = some { ({ functionType := 100, linkage := 0, name := "", parent := 0,
                      callingConv := 0, blocks := [], args := [], attrs := [] } : NativeFunction)
                   with blocks := [] ++ [block] }) ∧
    (¬ (([JsValue.object 3 (some 300)] : List JsValue).length = 1 ∧
        (BasicBlockWrapper.isInstance
          (([JsValue.object 3 (some 300)] : List JsValue).getD 0 .undefined)
          State.withFunction).1 = true) →
      (FunctionWrapper.addBasicBlock
          { args := [.object 3 (some 300)], holder := .object 6 (some 1),
            isConstructCall := false } State.withFunction).1
        = .error (.typeError "addBasicBlock needs to be called with: block: BasicBlock") ∧
      (FunctionWrapper.addBasicBlock
          { args := [.object 3 (some 300)], holder := .object 6 (some 1),
            isConstructCall := false } State.withFunction).2.native
        = State.withFunction.native ∧
      (FunctionWrapper.addBasicBlock
          { args := [.object 3 (some 300)], holder := .object 6 (some 1),
            isConstructCall := false } State.withFunction).2.native.function? 1
        = some { functionType := 100, linkage := 0, name := "", parent := 0,
                 callingConv := 0, blocks := [], args := [], attrs := [] }) :=
  addBasicBlock_appends_or_rejects State.withFunction (.object 6 (some 1)) 1
    { functionType := 100, linkage := 0, name := "", parent := 0, callingConv := 0,
      blocks := [], args := [], attrs := [] }
    [.object 3 (some 300)] rfl rfl
    (fun v hv => by
      rw [List.mem_singleton.mp hv]
      rfl)

/-! ## The round trip through `addBasicBlock` and `getEntryBlock` -/

theorem functionCreate_function (n : NativeState) (functionType : Ptr) (linkage : Nat)
    (name : String) :
    ∃ args, (n.functionCreate functionType linkage name nullptr).2.function?
        (n.functionCreate functionType linkage name nullptr).1
      = some { functionType := functionType, linkage := linkage, name := name,
               parent := nullptr, callingConv := 0, blocks := [], args := args, attrs := [] } := by
  refine ⟨(NativeState.allocMany ((n.functionTypes.lookup functionType).getD 0)
    { n with nextPtr := n.nextPtr + 1 }).1, ?_⟩
  simp [NativeState.functionCreate, NativeState.function?, List.lookup]

theorem getEntryBlock_of_blocks (s : State) (holder : JsValue) (fn : Ptr) (f : NativeFunction)
    (entry : Ptr) (rest : List Ptr) (hh : holder.unwrap = some fn)
    (hf : s.native.function? fn = some f) (hb : f.blocks = entry :: rest)
    (hnn : entry ≠ nullptr) :
    (FunctionWrapper.getEntryBlock
        { args := [], holder := holder, isConstructCall := false } s).1
      = .ok (.object (BasicBlockWrapper.basicBlockTemplate s).1 (some entry)) := by
  simp [FunctionWrapper.getEntryBlock, hh, hf, hb, BasicBlockWrapper.of, wrapVia, hnn]

theorem Create_main_new_function (s : State) (ft : JsValue) (functionType : Ptr)
    (hft : (FunctionTypeWrapper.isInstance ft s).1 = true)
    (hu : ft.unwrap = some functionType) :
    ∃ t fn args,
      (FunctionWrapper.Create
        { args := [ft, .number 0, .string "main"], holder := .undefined,
          isConstructCall := false } s).1 = .ok (.object t (some fn)) ∧
      (FunctionWrapper.Create
        { args := [ft, .number 0, .string "main"], holder := .undefined,
          isConstructCall := false } s).2.native.function? fn
        = some { functionType := functionType, linkage := 0, name := "main", parent := nullptr,
                 callingConv := 0, blocks := [], args := args, attrs := [] } := by
  have hg : FunctionWrapper.createRejects
      { args := [ft, .number 0, .string "main"], holder := .undefined,
        isConstructCall := false } s
      = (false, (FunctionTypeWrapper.isInstance ft s).2) := by
    simp [FunctionWrapper.createRejects, CallInfo.Length, CallInfo.get, hft, JsValue.IsUint32,
      JsValue.IsString]
  have hc := Create_of_accepts
    { args := [ft, .number 0, .string "main"], holder := .undefined, isConstructCall := false }
    s functionType nullptr (by rw [hg]) (by simpa [CallInfo.get] using hu)
    (by simp [CallInfo.Length])
  obtain ⟨args, hfun⟩ :=
    functionCreate_function (FunctionTypeWrapper.isInstance ft s).2.native functionType 0 "main"
  rw [hc, of_eq, hg]
  refine ⟨_, _, args, rfl, ?_⟩
  rw [functionTemplate_native]
  simpa [CallInfo.Length, CallInfo.get, JsValue.toUint32, JsValue.ToStdString] using hfun

/-- C5: for the handle `f` that `Function.create` returns for a function type
handle, linkage 0 and the name "main" (a new native function, whose block list
is empty) and every `BasicBlock` handle `b` on a native block:
`f.addBasicBlock(b)` succeeds, and `f.getEntryBlock()` after it returns a handle
whose native target is the native block that `b` wraps. -/
theorem create_addBasicBlock_getEntryBlock_roundtrip (s : State) (ft b : JsValue)
    (functionType block : Ptr)
    (hft : (FunctionTypeWrapper.isInstance ft s).1 = true)
    (hu : ft.unwrap = some functionType)
    (hb : (BasicBlockWrapper.isInstance b
      (FunctionWrapper.Create
        { args := [ft, .number 0, .string "main"], holder := .undefined,
          isConstructCall := false } s).2).1 = true)
    (hbu : b.unwrap = some block) (hnn : block ≠ nullptr) :
    ∃ f fn fd,
      (FunctionWrapper.Create
        { args := [ft, .number 0, .string "main"], holder := .undefined,
          isConstructCall := false } s).1 = .ok f ∧
      f.unwrap = some fn ∧
      (FunctionWrapper.Create
        { args := [ft, .number 0, .string "main"], holder := .undefined,
          isConstructCall := false } s).2.native.function? fn = some fd ∧
      fd.blocks = [] ∧ fd.name = "main" ∧ fd.linkage = 0 ∧
      (FunctionWrapper.addBasicBlock { args := [b], holder := f, isConstructCall := false }
        (FunctionWrapper.Create
          { args := [ft, .number 0, .string "main"], holder := .undefined,
            isConstructCall := false } s).2).1 = .ok .undefined ∧
      ∃ entry,
        (FunctionWrapper.getEntryBlock { args := [], holder := f, isConstructCall := false }
          (FunctionWrapper.addBasicBlock { args := [b], holder := f, isConstructCall := false }
            (FunctionWrapper.Create
              { args := [ft, .number 0, .string "main"], holder := .undefined,
                isConstructCall := false } s).2).2).1 = .ok entry ∧
        entry.unwrap = some block ∧ entry.unwrap = b.unwrap := by
  obtain ⟨t, fn, args, hcr, hfn⟩ := Create_main_new_function s ft functionType hft hu
  have hadd := addBasicBlock_of_instance _ (.object t (some fn)) b fn block hb hbu rfl
  have hn : (BasicBlockWrapper.isInstance b
      (FunctionWrapper.Create
        { args := [ft, .number 0, .string "main"], holder := .undefined,
          isConstructCall := false } s).2).2.native
      = (FunctionWrapper.Create
        { args := [ft, .number 0, .string "main"], holder := .undefined,
          isConstructCall := false } s).2.native :=
    isInstanceVia_native _ basicBlockTemplate_native _ _
  refine ⟨.object t (some fn), fn, _, hcr, rfl, hfn, rfl, rfl, rfl, ?_, ?_⟩
  · rw [hadd]
  · rw [hadd]
    have hf := pushBackBlock_function _ fn block _ (hn ▸ hfn)
    exact ⟨_, getEntryBlock_of_blocks _ (.object t (some fn)) fn _ block [] rfl hf rfl hnn,
      rfl, hbu.symm⟩

/-- Witness of C5: in the ready registry, with the function type handle of
template 0 and the block handle `object 3 (some 300)`, the entry block of the
new function "main" after `addBasicBlock` wraps block 300. -/
theorem create_addBasicBlock_getEntryBlock_roundtrip_witness :
    ∃ f fn fd,
      (FunctionWrapper.Create
        { args := [.object 0 (some 100), .number 0, .string "main"], holder := .undefined,
          isConstructCall := false } State.ready).1 = .ok f ∧
      f.unwrap = some fn ∧
      (FunctionWrapper.Create
        { args := [.object 0 (some 100), .number 0, .string "main"], holder := .undefined,
          isConstructCall := false } State.ready).2.native.function? fn = some fd ∧
      fd.blocks = [] ∧ fd.name = "main" ∧ fd.linkage = 0 ∧
      (FunctionWrapper.addBasicBlock
        { args := [.object 3 (some 300)], holder := f, isConstructCall := false }
        (FunctionWrapper.Create
          { args := [.object 0 (some 100), .number 0, .string "main"], holder := .undefined,
            isConstructCall := false } State.ready).2).1 = .ok .undefined ∧
      ∃ entry,
        (FunctionWrapper.getEntryBlock { args := [], holder := f, isConstructCall := false }
          (FunctionWrapper.addBasicBlock
            { args := [.object 3 (some 300)], holder := f, isConstructCall := false }
            (FunctionWrapper.Create
              { args := [.object 0 (some 100), .number 0, .string "main"],
                holder := .undefined, isConstructCall := false } State.ready).2).2).1
          = .ok entry ∧
        entry.unwrap = some 300 ∧ entry.unwrap = (JsValue.object 3 (some 300)).unwrap :=
  create_addBasicBlock_getEntryBlock_roundtrip State.ready (.object 0 (some 100))
    (.object 3 (some 300)) 100 300 rfl rfl rfl rfl (by decide)

/-! ## `getArguments` -/

theorem arraySet_at_end (done : List JsValue) (holes : Nat) (v : JsValue) :
    arraySet (done ++ List.replicate holes JsValue.undefined) done.length v
      = (done ++ [v]) ++ List.replicate (holes - 1) JsValue.undefined := by
  unfold arraySet
  cases holes with
  | zero => simp
  | succ h =>
    have hlt : done.length < (done ++ List.replicate (h + 1) JsValue.undefined).length := by
      simp
    rw [if_pos hlt, List.set_append_right _ _ (Nat.le_refl _)]
    simp [List.replicate_succ]

theorem argument_of_cached (s : State) (tA : Nat) (a : Ptr)
    (hc : s.lookup .Argument = some tA) (ha : a ≠ nullptr) :
    ArgumentWrapper.of a s = (.ok (.object tA (some a)), s) := by
  simp [ArgumentWrapper.of, wrapVia, ArgumentWrapper.argumentTemplate,
    derivedTemplate_of_cached _ _ s tA hc, ha]

theorem getArgumentsLoop_cached (s : State) (tA : Nat) (hc : s.lookup .Argument = some tA) :
    ∀ (args : List Ptr) (done : List JsValue) (holes : Nat),
      (∀ a ∈ args, a ≠ nullptr) → done.length + args.length < 4294967296 →
      FunctionWrapper.getArgumentsLoop args done.length
          (done ++ List.replicate holes JsValue.undefined) s
        = (.ok (done ++ args.map (fun a => JsValue.object tA (some a))
            ++ List.replicate (holes - args.length) JsValue.undefined), s) := by
  intro args
  induction args with
  | nil =>
    intro done holes _ _
    simp [FunctionWrapper.getArgumentsLoop]
  | cons a rest ih =>
    intro done holes hnn hlen
    have hof := argument_of_cached s tA a hc (hnn a (List.mem_cons_self a rest))
    have hlen' : done.length + 1 + rest.length < 4294967296 := by
      simp only [List.length_cons] at hlen
      omega
    have hi : (done.length + 1) % 4294967296 = (done ++ [JsValue.object tA (some a)]).length := by
      rw [Nat.mod_eq_of_lt (by omega)]
      simp
    unfold FunctionWrapper.getArgumentsLoop
    rw [hof]
    simp only
    rw [arraySet_at_end, hi,
      ih (done ++ [JsValue.object tA (some a)]) (holes - 1)
        (fun x hx => hnn x (List.mem_cons_of_mem a hx)) (by simpa using hlen')]
    simp [Nat.sub_sub, Nat.add_comm]

theorem getArgumentsLoop_from_start (s : State) (args : List Ptr) (holes : Nat)
    (hnn : ∀ a ∈ args, a ≠ nullptr) (hlen : args.length < 4294967296) :
    (FunctionWrapper.getArgumentsLoop args 0 (List.replicate holes JsValue.undefined) s).1
      = .ok (args.map (fun a => JsValue.object (ArgumentWrapper.argumentTemplate s).1 (some a))
          ++ List.replicate (holes - args.length) JsValue.undefined) := by
  cases args with
  | nil => simp [FunctionWrapper.getArgumentsLoop]
  | cons a rest =>
    have ha : a ≠ nullptr := hnn a (List.mem_cons_self a rest)
    have hof : ArgumentWrapper.of a s
        = (.ok (.object (ArgumentWrapper.argumentTemplate s).1 (some a)),
            (ArgumentWrapper.argumentTemplate s).2) := by
      simp [ArgumentWrapper.of, wrapVia, ha]
    have hc : (ArgumentWrapper.argumentTemplate s).2.lookup .Argument
        = some (ArgumentWrapper.argumentTemplate s).1 := derivedTemplate_lookup _ _ s
    have hset := arraySet_at_end [] holes
      (JsValue.object (ArgumentWrapper.argumentTemplate s).1 (some a))
    have hloop := getArgumentsLoop_cached _ _ hc rest
      [JsValue.object (ArgumentWrapper.argumentTemplate s).1 (some a)] (holes - 1)
      (fun x hx => hnn x (List.mem_cons_of_mem a hx))
      (by simp only [List.length_cons, List.length_nil] at hlen ⊢; omega)
    simp only [List.nil_append, List.length_nil] at hset
    simp only [List.length_singleton] at hloop
    unfold FunctionWrapper.getArgumentsLoop
    rw [hof]
    simp only
    rw [hset, show (0 + 1) % 4294967296 = 1 from rfl, hloop]
    simp [Nat.sub_sub, Nat.add_comm]

theorem newArray_holes (n : Nat) :
    ∃ holes, newArray n = List.replicate holes JsValue.undefined ∧ holes - n = 0 := by
  unfold newArray
  by_cases h : n % 4294967296 < 2147483648
  · exact ⟨n % 4294967296, by simp [h], Nat.sub_eq_zero_of_le (Nat.mod_le _ _)⟩
  · exact ⟨0, by simp [h], by simp⟩

/-- C10: for a `Function` handle whose native function `f` has `n` arguments
(fewer than `2^32`, each at a non-null address), `getArguments` returns an array
of length exactly `n` whose element at each index `i < n` is a handle of the
`Argument` class wrapping the `i`-th native argument, in the function's own
order; for `n = 0` the array is empty. -/
theorem getArguments_wraps_each_argument (s : State) (info : CallInfo) (fn : Ptr)
    (f : NativeFunction) (hh : info.holder.unwrap = some fn)
    (hf : s.native.function? fn = some f) (hlen : f.args.length < 4294967296)
    (hnn : ∀ a ∈ f.args, a ≠ nullptr) :
    ∃ elems,
      (FunctionWrapper.getArguments info s).1 = .ok (.array elems) ∧
      elems.length = f.args.length ∧
      elems = f.args.map
        (fun a => JsValue.object (ArgumentWrapper.argumentTemplate s).1 (some a)) ∧
      elems.map JsValue.unwrap = f.args.map some ∧
      (∀ i, i < f.args.length →
        ∃ handle a, elems[i]? = some handle ∧ f.args[i]? = some a ∧ handle.unwrap = some a) ∧
      (f.args = [] → elems = []) := by
  obtain ⟨holes, hnew, hz⟩ := newArray_holes f.args.length
  have hloop := getArgumentsLoop_from_start s f.args holes hnn hlen
  rw [hz] at hloop
  simp only [List.replicate_zero, List.append_nil] at hloop
  refine ⟨_, ?_, ?_, rfl, ?_, ?_, ?_⟩
  · unfold FunctionWrapper.getArguments
    simp only [hh, hf, hnew]
    revert hloop
    generalize FunctionWrapper.getArgumentsLoop f.args 0
      (List.replicate holes JsValue.undefined) s = r
    intro hloop
    obtain ⟨r1, r2⟩ := r
    simp only at hloop
    subst hloop
    rfl
  · simp
  · simp [List.map_map, Function.comp_def, JsValue.unwrap]
  · intro i hi
    refine ⟨.object (ArgumentWrapper.argumentTemplate s).1 (some f.args[i]), f.args[i], ?_, ?_,
      rfl⟩
    · simp [List.getElem?_map, List.getElem?_eq_getElem hi]
    · exact List.getElem?_eq_getElem hi
  · intro h
    simp [h]

/-- Witness of C10: the function of the fixture has the arguments 8 and 9, and
`getArguments` returns the handles of 8 and 9 in that order. -/
theorem getArguments_wraps_each_argument_witness :
    ∃ elems,
      (FunctionWrapper.getArguments
        { args := [], holder := .object 6 (some 7), isConstructCall := false }
        State.withArguments).1 = .ok (.array elems) ∧
      elems.length = ([8, 9] : List Ptr).length ∧
      elems = ([8, 9] : List Ptr).map
        (fun a => JsValue.object (ArgumentWrapper.argumentTemplate State.withArguments).1
          (some a)) ∧
      elems.map JsValue.unwrap = ([8, 9] : List Ptr).map some ∧
      (∀ i, i < ([8, 9] : List Ptr).length →
        ∃ handle a, elems[i]? = some handle ∧ ([8, 9] : List Ptr)[i]? = some a ∧
          handle.unwrap = some a) ∧
      (([8, 9] : List Ptr) = [] → elems = []) :=
  getArguments_wraps_each_argument State.withArguments
    { args := [], holder := .object 6 (some 7), isConstructCall := false } 7
    { functionType := 100, linkage := 0, name := "f", parent := 0, callingConv := 0,
      blocks := [], args := [8, 9], attrs := [] }
    rfl rfl (by decide) (by decide)

/-! ## The native constructor is called once per accepted `Create` -/

theorem allocMany_calls (k : Nat) (n : NativeState) :
    (NativeState.allocMany k n).2.calls = n.calls := by
  induction k generalizing n with
  | zero => rfl
  | succ k ih => simp [NativeState.allocMany, ih]

theorem insertIntoModule_calls (n : NativeState) (m fn : Ptr) :
    (n.insertIntoModule m fn).calls = n.calls := by
  unfold NativeState.insertIntoModule
  split <;> rfl

theorem functionCreate_calls (n : NativeState) (functionType : Ptr) (linkage : Nat)
    (name : String) (module : Ptr) :
    (n.functionCreate functionType linkage name module).2.calls
      = n.calls ++ [NativeCall.functionCreate functionType linkage name module] := by
  unfold NativeState.functionCreate
  by_cases hm : module = nullptr
  · simp [hm, allocMany_calls]
  · simp [hm, allocMany_calls, insertIntoModule_calls]

/-- An accepted call of `Create` appends exactly one native call to the trace:
the constructor, on the unwrapped function type, the linkage of argument 1, the
name of argument 2 (empty without one) and the module the code resolved. -/
theorem Create_calls_constructor_once (info : CallInfo) (s : State) (functionType module : Ptr)
    (h : (FunctionWrapper.createRejects info s).1 = false)
    (h0 : (info.get 0).unwrap = some functionType)
    (h3 : (if info.Length = 4 then (info.get 3).unwrap else some nullptr) = some module) :
    (FunctionWrapper.Create info s).2.native.calls
      = s.native.calls ++ [NativeCall.functionCreate functionType (info.get 1).toUint32
          (if info.Length > 2 then (info.get 2).ToStdString else "") module] := by
  rw [Create_of_accepts info s functionType module h h0 h3, of_eq, functionTemplate_native]
  simp only [functionCreate_calls, createRejects_native]

/-! ## Every operation keeps the registry invariant -/

theorem isInstanceVia_registryOk (c : ClassId) (g : State → Nat × State) (hg : GoodGetter c g)
    (v : JsValue) (s : State) (hs : RegistryOk s) : RegistryOk (isInstanceVia g v s).2 :=
  (hg s hs).1

theorem createRejects_registryOk (info : CallInfo) (s : State) (hs : RegistryOk s) :
    RegistryOk (FunctionWrapper.createRejects info s).2 := by
  have h0 : RegistryOk (FunctionTypeWrapper.isInstance (info.get 0) s).2 :=
    isInstanceVia_registryOk _ _ functionTypeTemplate_good _ s hs
  have h3 : RegistryOk (ModuleWrapper.isInstance (info.get 3)
      (FunctionTypeWrapper.isInstance (info.get 0) s).2).2 :=
    isInstanceVia_registryOk _ _ moduleTemplate_good _ _ h0
  unfold FunctionWrapper.createRejects
  dsimp only
  split_ifs <;> assumption

theorem Create_registryOk (info : CallInfo) (s : State) (hs : RegistryOk s) :
    RegistryOk (FunctionWrapper.Create info s).2 := by
  have hg := createRejects_registryOk info s hs
  by_cases hr : (FunctionWrapper.createRejects info s).1 = true
  · rw [Create_of_rejects info s hr]
    exact hg
  · have hr' : (FunctionWrapper.createRejects info s).1 = false := by simpa using hr
    cases h0 : (info.get 0).unwrap with
    | none =>
      have he : FunctionWrapper.Create info s
          = (.error (.fatal "Unwrap: no wrapper"), (FunctionWrapper.createRejects info s).2) := by
        simp [FunctionWrapper.Create, hr', h0]
      rw [he]
      exact hg
    | some functionType =>
      cases h3 : (if info.Length = 4 then (info.get 3).unwrap else some nullptr) with
      | none =>
        have he : FunctionWrapper.Create info s
            = (.error (.fatal "Unwrap: no wrapper"), (FunctionWrapper.createRejects info s).2) := by
          simp only [FunctionWrapper.Create, hr', h0, h3]
          simp
        rw [he]
        exact hg
      | some module =>
        rw [Create_of_accepts info s functionType module hr' h0 h3, of_eq]
        exact (functionTemplate_good _ (registryOk_with_native _ _ hg)).1

theorem addBasicBlock_registryOk (info : CallInfo) (s : State) (hs : RegistryOk s) :
    RegistryOk (FunctionWrapper.addBasicBlock info s).2 := by
  have h0 : RegistryOk (BasicBlockWrapper.isInstance (info.get 0) s).2 :=
    isInstanceVia_registryOk _ _ basicBlockTemplate_good _ s hs
  unfold FunctionWrapper.addBasicBlock
  dsimp only
  split_ifs
  · exact hs
  · exact h0
  · split
    · exact registryOk_with_native _ _ h0
    · exact h0

theorem setCallingConv_registryOk (holder value : JsValue) (s : State) (hs : RegistryOk s) :
    RegistryOk (FunctionWrapper.setCallingConv holder value s).2 := by
  unfold FunctionWrapper.setCallingConv
  dsimp only
  split_ifs
  · exact hs
  · split
    · exact hs
    · exact registryOk_with_native _ _ hs

theorem registryOk_ready : RegistryOk State.ready :=
  (argumentTemplate_good _ ((basicBlockTemplate_good _ ((moduleTemplate_good _
    ((functionTypeTemplate_good _ registryOk_empty).1)).1)).1)).1

theorem Init_registryOk (target : List (String × Nat)) (s : State) (hs : RegistryOk s) :
    RegistryOk (FunctionWrapper.Init target s).2 :=
  (functionTemplate_good s hs).1

end LlvmNode
